import Mathlib

/-!
# Verification of the Swiss public-transport decision core

Shallow embedding of the decision/ranking logic (`src/insights/decision.ts`),
the line resolver (`src/gtfs/lookup.ts`) and the GTFS build-time CSV parsing
(`scripts/build-gtfs-lookup.ts`).

Modelling conventions:
* JS numbers are `ℚ` (scores, penalties) or `ℤ`/`ℕ` (minute counts, indices).
* ISO timestamp strings are `Option ℤ`: the epoch-millisecond value of a
  successfully parsed timestamp, `none` when the string is missing, empty or
  unparseable (`new Date(s).getTime()` returning `NaN`).
* `Math.round` is `jsRound` (`⌊x + 1/2⌋`, JavaScript's round-half-up).
* JS `Array.prototype.sort` with a numeric comparator is a stable sort; it is
  modelled with `List.mergeSort`, which is stable.
* JS objects used as string-keyed maps are association lists in insertion
  order (`recordSet` updates in place, mirroring JS key-ordering semantics).
-/

namespace Swiss

/-- JavaScript `Math.round`: round half toward positive infinity. -/
def jsRound (q : ℚ) : ℤ := ⌊q + 1/2⌋

/-- `clamp` from `decision.ts`: `Math.max(min, Math.min(max, value))`. -/
def clamp (value lo hi : ℚ) : ℚ := max lo (min hi value)

/-- `normalize` from `decision.ts`. -/
def normalize (value lo hi : ℚ) : ℚ :=
  if hi ≤ lo then 0 else clamp ((value - lo) / (hi - lo)) 0 1

/-- JS `a || b` on two optional timestamps (a parsed timestamp is truthy). -/
def orT (a b : Option ℤ) : Option ℤ :=
  match a with
  | some x => some x
  | none => b

/-- JS `a || b` where an empty string is falsy. -/
def orS (a : Option String) (b : Option String) : Option String :=
  match a with
  | some s => if s = "" then b else some s
  | none => b

/-- JS whitespace for `trim` (the characters relevant here). -/
def isSpaceChar (c : Char) : Bool :=
  c = ' ' ∨ c = '\t' ∨ c = '\n' ∨ c = '\r' ∨ c = '\x0b' ∨ c = '\x0c'

/-- Model of `String.prototype.trim`. -/
def jsTrim (s : String) : String :=
  String.mk (((s.data.dropWhile isSpaceChar).reverse.dropWhile isSpaceChar).reverse)

/-- Model of `String.prototype.toUpperCase` (ASCII as used here). -/
def jsToUpper (s : String) : String := String.mk (s.data.map Char.toUpper)

/-- Model of `String.prototype.startsWith`. -/
def jsStartsWith (s pre : String) : Bool := pre.data.isPrefixOf s.data

/-- Model of `String.prototype.includes` on character lists. -/
def hasInfix (pat : List Char) : List Char → Bool
  | [] => pat.isEmpty
  | c :: t => pat.isPrefixOf (c :: t) || hasInfix pat t

/-- Model of `Array.prototype.join` / `String.intercalate`. -/
def joinSep (sep : String) : List String → String
  | [] => ""
  | [s] => s
  | s :: rest => s ++ sep ++ joinSep sep rest

/-- `minutesBetween` from `decision.ts`: 0 on missing/unparseable timestamps,
otherwise the elapsed minutes rounded, floored at zero. -/
def minutesBetween (startT endT : Option ℤ) : ℤ :=
  match startT, endT with
  | some s, some e => max 0 (jsRound (((e : ℚ) - (s : ℚ)) / 60000))
  | _, _ => 0

/-- `subtractMinutes` from `decision.ts` on parsed timestamps. -/
def subtractMinutes (iso : Option ℤ) (minutes : ℤ) : Option ℤ :=
  match iso with
  | none => none
  | some ms => some (ms - minutes * 60000)

inductive LegType where
  | ride
  | walk
  deriving DecidableEq, Repr

inductive RiskLevel where
  | low
  | medium
  | high
  deriving DecidableEq, Repr

structure Endpoint where
  name : String
  timePlanned : Option ℤ
  timeActual : Option ℤ
  platform : Option String
  deriving DecidableEq, Repr

structure Leg where
  type : LegType
  from_ : Endpoint
  to_ : Endpoint
  line : Option String
  delayMinutes : Option ℤ
  deriving DecidableEq, Repr

structure WeatherSample where
  precipitation : ℚ
  snowfall : ℚ
  windGusts : ℚ
  deriving DecidableEq, Repr

structure WeatherReason where
  label : String
  deriving DecidableEq, Repr

structure WeatherInsight where
  penalty : ℚ
  level : RiskLevel
  reasons : List WeatherReason
  samples : List WeatherSample
  deriving DecidableEq, Repr

structure ReliabilityReason where
  code : String
  deriving DecidableEq, Repr

structure Reliability where
  score : ℚ
  reasons : List ReliabilityReason
  deriving DecidableEq, Repr

structure Connection where
  id : String
  departureTime : Option ℤ
  arrivalTime : Option ℤ
  durationMinutes : ℤ
  transfersCount : ℕ
  legs : List Leg
  reliability : Option Reliability
  reliabilityScore : Option ℚ
  weather : Option WeatherInsight
  tags : List String
  deriving DecidableEq, Repr

structure ConnectionMetrics where
  walkingMinutes : ℤ
  transferWaitMinutesList : List ℤ
  transferWaitMinutes : ℤ
  minTransferMinutes : Option ℤ
  transferStation : Option String
  exposureMinutes : ℤ
  delayMinutesTotal : ℤ
  delayAlerts : List String
  platformChanges : List String
  deriving DecidableEq, Repr

/-- `isWetWeather` from `decision.ts`: any sample with positive precipitation
or snowfall. -/
def isWetWeather (weather : Option WeatherInsight) : Bool :=
  match weather with
  | none => false
  | some w =>
    if w.samples.isEmpty then false
    else w.samples.any (fun sample => sample.precipitation > 0 ∨ sample.snowfall > 0)

/-- `getWeatherConditionLabel` from `decision.ts`. -/
def getWeatherConditionLabel (weather : Option WeatherInsight) : Option String :=
  match weather with
  | none => none
  | some w =>
    match w.samples with
    | [] => none
    | sample :: _ =>
      if sample.snowfall > 0 then some "snow"
      else if sample.precipitation > 0 then some "rain"
      else if sample.windGusts > 50 then some "wind"
      else none

/-- The actual-or-planned departure timestamp of a leg endpoint pairing. -/
def depTime (leg : Leg) : Option ℤ := orT leg.from_.timeActual leg.from_.timePlanned

/-- The actual-or-planned arrival timestamp of a leg. -/
def arrTime (leg : Leg) : Option ℤ := orT leg.to_.timeActual leg.to_.timePlanned

/-- The `type === "ride"` filter from `buildMetrics`. -/
def rideLegsOf (legs : List Leg) : List Leg :=
  legs.filter (fun leg => leg.type = LegType.ride)

/-- The `type === "walk"` filter from `buildMetrics`. -/
def walkLegsOf (legs : List Leg) : List Leg :=
  legs.filter (fun leg => leg.type = LegType.walk)

/-- The transfer-wait loop of `buildMetrics`: one entry per adjacent pair of
ride legs, previous arrival to next departure. -/
def transferWaitsOf : List Leg → List ℤ
  | a :: b :: rest => minutesBetween (arrTime a) (depTime b) :: transferWaitsOf (b :: rest)
  | _ => []

/-- `Math.min(...list)` on a non-empty list (`undefined` when empty). -/
def minList? : List ℤ → Option ℤ
  | [] => none
  | x :: xs => some (xs.foldl min x)

/-- Delay accumulation step of `buildMetrics` (total plus deduplicated alert
labels, first-seen order). -/
def delayStep (acc : ℤ × List String) (leg : Leg) : ℤ × List String :=
  match leg.delayMinutes with
  | some d =>
    if d > 0 then
      let label :=
        match orS leg.line none with
        | some s => s ++ " +" ++ toString d ++ " min"
        | none => "Delay +" ++ toString d ++ " min"
      (acc.1 + d, if label ∈ acc.2 then acc.2 else acc.2 ++ [label])
    else acc
  | none => acc

/-- `addPlatformChange` from `buildMetrics`: record a station whose platform
string contains the live-change marker `!`, deduplicated. -/
def addPlatformChange (acc : List String) (station : String) (platform : Option String) : List String :=
  match platform with
  | none => acc
  | some p =>
    if p = "" then acc
    else if p.data.contains '!' then
      let label := station ++ " (Pl. " ++ p ++ ")"
      if label ∈ acc then acc else acc ++ [label]
    else acc

/-- `buildMetrics` from `decision.ts`. -/
def buildMetrics (legs : List Leg) : ConnectionMetrics :=
  let walkLegs := walkLegsOf legs
  let rideLegs := rideLegsOf legs
  let walkingMinutes :=
    walkLegs.foldl (fun sum leg => sum + minutesBetween (depTime leg) (arrTime leg)) 0
  let transferWaitMinutesList := transferWaitsOf rideLegs
  let transferWaitMinutes := transferWaitMinutesList.foldl (fun sum v => sum + v) 0
  let minTransferMinutes := minList? transferWaitMinutesList
  let tightTransferIndex :=
    transferWaitMinutesList.findIdx? (fun minutes => minTransferMinutes = some minutes)
  let transferStation :=
    tightTransferIndex.bind (fun i => (rideLegs.get? i).map (fun leg => leg.to_.name))
  let delayAcc := rideLegs.foldl delayStep (0, [])
  let platformChanges :=
    legs.foldl
      (fun acc leg =>
        addPlatformChange (addPlatformChange acc leg.from_.name leg.from_.platform)
          leg.to_.name leg.to_.platform)
      []
  { walkingMinutes := walkingMinutes
    transferWaitMinutesList := transferWaitMinutesList
    transferWaitMinutes := transferWaitMinutes
    minTransferMinutes := minTransferMinutes
    transferStation := transferStation
    exposureMinutes := walkingMinutes + transferWaitMinutes
    delayMinutesTotal := delayAcc.1
    delayAlerts := delayAcc.2
    platformChanges := platformChanges }

/-- `computeRisk` from `decision.ts`. -/
def computeRisk (connection : Connection) (metrics : ConnectionMetrics) : ℚ × RiskLevel :=
  let reliabilityScore : ℚ :=
    match connection.reliability with
    | some r => r.score
    | none =>
      match connection.reliabilityScore with
      | some s => s
      | none => 7/10
  let delayLikelihood := 1 - reliabilityScore
  let weatherPenalty : ℚ :=
    match connection.weather with
    | some w => w.penalty
    | none => 0
  let exposureFactor := clamp ((metrics.exposureMinutes : ℚ) / 20) 0 1
  let weatherExposureRisk := weatherPenalty * (3/10 + 7/10 * exposureFactor)
  let tightTransferPenalty : ℚ :=
    match metrics.minTransferMinutes with
    | some t => if t < 6 then 12/100 else if t < 8 then 6/100 else 0
    | none => 0
  let score := clamp (delayLikelihood + weatherExposureRisk + tightTransferPenalty) 0 1
  let level :=
    if score ≥ 6/10 then RiskLevel.high
    else if score ≥ 35/100 then RiskLevel.medium
    else RiskLevel.low
  (score, level)

/-- The reliability value named in claim C1: the connection's reliability
estimate, defaulting to `0.7` when absent. -/
def reliabilityOf (connection : Connection) : ℚ :=
  match connection.reliability with
  | some r => r.score
  | none =>
    match connection.reliabilityScore with
    | some s => s
    | none => 7/10

/-- The weather penalty named in claim C1, defaulting to `0`. -/
def weatherPenaltyOf (connection : Connection) : ℚ :=
  match connection.weather with
  | some w => w.penalty
  | none => 0

/-- The tight-transfer penalty exactly as claim C1 words it: `0.12` when the
minimum transfer wait exists and is below 6 minutes, `0.06` when it lies in
`[6, 8)`, and `0` otherwise or when no transfer exists. -/
def claimTightPenalty : Option ℤ → ℚ
  | some t => if t < 6 then 12/100 else if 6 ≤ t ∧ t < 8 then 6/100 else 0
  | none => 0

/-- Decision preferences. `maxTransfers` is a transfer count; the source
normalizes it with `Math.max(0, Math.floor(...))`, which is the identity on
natural numbers. -/
structure DecisionPreferences where
  maxTransfers : Option ℕ
  preferLowWalking : Bool
  minimizeOutdoorIfRaining : Bool
  deriving DecidableEq, Repr

/-- The query context. An absent `preferences` object in the source behaves
exactly like `⟨none, false, false⟩` (every access is optional-chained), so
preferences are stored directly. -/
structure DecisionContext where
  from_ : String
  to_ : String
  requestedTimeISO : Option ℤ
  isArrivalTime : Bool
  arrivalBufferMinutes : Option ℤ
  departureBufferMinutes : Option ℤ
  preferences : DecisionPreferences
  deriving DecidableEq, Repr

/-- One ranked option. The nested `alerts` / `weather` objects of the source
are flattened into fields. -/
structure DecisionOption where
  id : String
  rank : ℕ
  label : String
  departureTime : Option ℤ
  arrivalTime : Option ℤ
  durationMinutes : ℤ
  transfersCount : ℕ
  minTransferMinutes : Option ℤ
  walkingMinutes : ℤ
  transferWaitMinutes : ℤ
  exposureMinutes : ℤ
  riskScore : ℚ
  riskLevel : RiskLevel
  reasons : List String
  suggestedDepartureTime : Option ℤ
  suggestedLeaveByTime : Option ℤ
  arrivalBufferMinutes : Option ℤ
  alertDelays : List String
  alertPlatformChanges : List String
  weatherLevel : Option RiskLevel
  weatherSummary : Option String
  deriving DecidableEq, Repr

/-- The full decision summary (dataCoverage flattened into four flags). -/
structure DecisionSummary where
  from_ : String
  to_ : String
  requestedTimeISO : Option ℤ
  isArrivalTime : Bool
  arrivalBufferMinutes : Option ℤ
  departureBufferMinutes : Option ℤ
  constraints : DecisionPreferences
  constraintNote : Option String
  options : List DecisionOption
  recommendedOptionId : Option String
  summaryText : String
  dataCoverageRealtimeDelays : Bool
  dataCoveragePlatformChanges : Bool
  dataCoverageCancellations : Bool
  dataCoverageServiceNotices : Bool
  deriving DecidableEq, Repr

def pad2 (n : ℕ) : String := if n < 10 then "0" ++ toString n else toString n

/-- Model of `formatTime`: `"--:--"` for a missing/unparseable timestamp,
otherwise `HH:MM`. The source renders in the `de-CH` locale in the process
timezone; the model renders the UTC wall clock, deterministically. -/
def formatTime (iso : Option ℤ) : String :=
  match iso with
  | none => "--:--"
  | some ms =>
    let totalMinutes : ℤ := ⌊(ms : ℚ) / 60000⌋
    let minutesOfDay : ℕ := (totalMinutes % 1440).toNat
    pad2 (minutesOfDay / 60) ++ ":" ++ pad2 (minutesOfDay % 60)

/-- Model of `Number.prototype.toFixed(2)` for the non-negative scores
produced here: round to two decimals (ties toward the larger value). -/
def toFixed2 (q : ℚ) : String :=
  let n : ℤ := ⌊q * 100 + 1/2⌋
  toString (n / 100) ++ "." ++ pad2 ((n % 100).toNat)

def riskLevelText : RiskLevel → String
  | .low => "low"
  | .medium => "medium"
  | .high => "high"

def OPTION_LABELS : List String :=
  ["A", "B", "C", "D", "E", "F", "G", "H", "I", "J", "K", "L", "M",
   "N", "O", "P", "Q", "R", "S", "T", "U", "V", "W", "X", "Y", "Z"]

/-- `OPTION_LABELS[index] ? "Option X" : "Option <n>"`. -/
def optionLabel (index : ℕ) : String :=
  match OPTION_LABELS.get? index with
  | some letter => "Option " ++ letter
  | none => "Option " ++ toString (index + 1)

structure ReasonCandidate where
  label : String
  priority : ℤ
  deriving DecidableEq, Repr

/-- `addReason` from `buildReasons`: skip falsy labels and labels already
present, otherwise append. -/
def addReason (reasons : List ReasonCandidate) (label : Option String) (priority : ℤ) :
    List ReasonCandidate :=
  match label with
  | none => reasons
  | some l =>
    if l = "" then reasons
    else if reasons.any (fun r => r.label = l) then reasons
    else reasons ++ [⟨l, priority⟩]

/-- Candidate tier 1 of `buildReasons`: tight transfer below 8 minutes. -/
def reasonStep1 (metrics : ConnectionMetrics) : List ReasonCandidate :=
  match metrics.minTransferMinutes with
  | some t =>
    if t < 8 then
      let station :=
        match orS metrics.transferStation none with
        | some s => " at " ++ s
        | none => ""
      addReason [] (some (toString t ++ " min transfer" ++ station)) 1
    else []
  | none => []

/-- Candidate tier 2 of `buildReasons`: positive current delay. -/
def reasonStep2 (metrics : ConnectionMetrics) (rs : List ReasonCandidate) :
    List ReasonCandidate :=
  if metrics.delayMinutesTotal > 0 then
    addReason rs (some ("current delay +" ++ toString metrics.delayMinutesTotal ++ " min")) 2
  else rs

/-- Candidate tier 4 of `buildReasons`: the top weather-supplied reason. -/
def weatherReasonFallback (connection : Connection) (rs : List ReasonCandidate) :
    List ReasonCandidate :=
  match connection.weather with
  | some w =>
    match w.reasons with
    | r :: _ => addReason rs (some r.label) 4
    | [] => rs
  | none => rs

/-- Candidate tiers 3/4 of `buildReasons`: weather condition with exposure,
else the top weather-supplied reason. -/
def reasonStep34 (connection : Connection) (metrics : ConnectionMetrics)
    (rs : List ReasonCandidate) : List ReasonCandidate :=
  match getWeatherConditionLabel connection.weather with
  | some cond =>
    if metrics.exposureMinutes > 0 then
      addReason rs (some (cond ++ " + " ++ toString metrics.exposureMinutes ++ " min exposed")) 3
    else weatherReasonFallback connection rs
  | none => weatherReasonFallback connection rs

/-- Candidate tier 5 of `buildReasons`: walking minutes over the threshold. -/
def reasonStep5 (metrics : ConnectionMetrics) (preferences : DecisionPreferences)
    (rs : List ReasonCandidate) : List ReasonCandidate :=
  let walkingThreshold : ℤ := if preferences.preferLowWalking then 1 else 6
  if metrics.walkingMinutes ≥ walkingThreshold then
    addReason rs (some (toString metrics.walkingMinutes ++ " min walk")) 5
  else rs

/-- Candidate tier 6 of `buildReasons`: positive transfer count. -/
def reasonStep6 (connection : Connection) (rs : List ReasonCandidate) :
    List ReasonCandidate :=
  if connection.transfersCount > 0 then
    addReason rs
      (some (toString connection.transfersCount ++ " transfer" ++
        (if connection.transfersCount > 1 then "s" else ""))) 6
  else rs

/-- Candidate tier 7 of `buildReasons`: platform changes present. -/
def reasonStep7 (metrics : ConnectionMetrics) (rs : List ReasonCandidate) :
    List ReasonCandidate :=
  if metrics.platformChanges.length > 0 then
    addReason rs
      (some (toString metrics.platformChanges.length ++ " platform change" ++
        (if metrics.platformChanges.length > 1 then "s" else ""))) 7
  else rs

/-- Candidate tier 8 of `buildReasons`: the peak-time reliability flag. -/
def reasonStep8 (connection : Connection) (rs : List ReasonCandidate) :
    List ReasonCandidate :=
  let hasPeakTime :=
    match connection.reliability with
    | some rel => rel.reasons.any (fun reason => reason.code = "peak_time")
    | none => false
  if hasPeakTime then addReason rs (some "rush hour") 8 else rs

/-- The candidate list built by `buildReasons` before sorting/truncation
(tiers applied in source order). -/
def buildReasonCandidates (connection : Connection) (metrics : ConnectionMetrics)
    (preferences : DecisionPreferences) : List ReasonCandidate :=
  reasonStep8 connection
    (reasonStep7 metrics
      (reasonStep6 connection
        (reasonStep5 metrics preferences
          (reasonStep34 connection metrics
            (reasonStep2 metrics (reasonStep1 metrics))))))

/-- The candidates after the (stable) priority-ascending sort. -/
def buildReasonsRanked (connection : Connection) (metrics : ConnectionMetrics)
    (preferences : DecisionPreferences) : List ReasonCandidate :=
  (buildReasonCandidates connection metrics preferences).mergeSort
    (fun a b => a.priority ≤ b.priority)

/-- `buildReasons` from `decision.ts`: sorted candidates, first three, labels. -/
def buildReasons (connection : Connection) (metrics : ConnectionMetrics)
    (preferences : DecisionPreferences) : List String :=
  ((buildReasonsRanked connection metrics preferences).take 3).map (fun r => r.label)

/-- The per-connection decision score of the ranking pass in
`buildDecisionSummary`. -/
def decisionScoreOf (minDuration maxDuration maxTransfersObserved maxWalking maxExposure : ℚ)
    (preferLowWalking minimizeOutdoor : Bool)
    (connection : Connection) (metrics : ConnectionMetrics) : ℚ :=
  let risk := computeRisk connection metrics
  let durationScore := normalize (connection.durationMinutes : ℚ) minDuration maxDuration
  let transferScore := normalize (connection.transfersCount : ℚ) 0 maxTransfersObserved
  let walkingScore := normalize (metrics.walkingMinutes : ℚ) 0 maxWalking
  let exposureScore := normalize (metrics.exposureMinutes : ℚ) 0 maxExposure
  let isWet := isWetWeather connection.weather
  let wRisk : ℚ := 55/100
  let wDuration : ℚ := 2/10
  let wTransfer : ℚ := 1/10
  let wWalking : ℚ := if preferLowWalking then 1/10 else 0
  let wExposure : ℚ := if minimizeOutdoor && isWet then 1/10 else 0
  let weightSum := wRisk + wDuration + wTransfer + wWalking + wExposure
  (risk.1 * wRisk + durationScore * wDuration + transferScore * wTransfer +
      walkingScore * wWalking + exposureScore * wExposure) / weightSum

/-- The decision score as claim C2 words it: identical weights, except that the
exposure weight keys on wetness of the FIRST forecast sample only. -/
def claimFirstSampleWet (weather : Option WeatherInsight) : Bool :=
  match weather with
  | none => false
  | some w =>
    match w.samples with
    | [] => false
    | sample :: _ => sample.precipitation > 0 || sample.snowfall > 0

/-- Decision score as claim C2 states it (using `claimFirstSampleWet`). -/
def claimDecisionScore (minDuration maxDuration maxTransfersObserved maxWalking maxExposure : ℚ)
    (preferLowWalking minimizeOutdoor : Bool)
    (connection : Connection) (metrics : ConnectionMetrics) : ℚ :=
  let risk := computeRisk connection metrics
  let durationScore := normalize (connection.durationMinutes : ℚ) minDuration maxDuration
  let transferScore := normalize (connection.transfersCount : ℚ) 0 maxTransfersObserved
  let walkingScore := normalize (metrics.walkingMinutes : ℚ) 0 maxWalking
  let exposureScore := normalize (metrics.exposureMinutes : ℚ) 0 maxExposure
  let wWalking : ℚ := if preferLowWalking then 1/10 else 0
  let wExposure : ℚ :=
    if minimizeOutdoor && claimFirstSampleWet connection.weather then 1/10 else 0
  (risk.1 * (55/100) + durationScore * (2/10) + transferScore * (1/10) +
      walkingScore * wWalking + exposureScore * wExposure) /
    (55/100 + 2/10 + 1/10 + wWalking + wExposure)

/-- One pre-sort entry of the ranking pass: the option plus its score. -/
def buildOptionEntry (context : DecisionContext)
    (minDuration maxDuration maxTransfersObserved maxWalking maxExposure : ℚ)
    (index : ℕ) (connection : Connection) (metrics : ConnectionMetrics) :
    DecisionOption × ℚ :=
  let risk := computeRisk connection metrics
  let decisionScore :=
    decisionScoreOf minDuration maxDuration maxTransfersObserved maxWalking maxExposure
      context.preferences.preferLowWalking context.preferences.minimizeOutdoorIfRaining
      connection metrics
  let arrivalBufferMinutes :=
    if context.isArrivalTime then
      match context.requestedTimeISO with
      | some t => some (minutesBetween connection.arrivalTime (some t))
      | none => none
    else none
  let suggestedLeaveByTime :=
    if context.isArrivalTime then none
    else
      match context.departureBufferMinutes with
      | some b => if b = 0 then none else subtractMinutes connection.departureTime b
      | none => none
  ({ id := connection.id
     rank := index + 1
     label := optionLabel index
     departureTime := connection.departureTime
     arrivalTime := connection.arrivalTime
     durationMinutes := connection.durationMinutes
     transfersCount := connection.transfersCount
     minTransferMinutes := metrics.minTransferMinutes
     walkingMinutes := metrics.walkingMinutes
     transferWaitMinutes := metrics.transferWaitMinutes
     exposureMinutes := metrics.exposureMinutes
     riskScore := risk.1
     riskLevel := risk.2
     reasons := buildReasons connection metrics context.preferences
     suggestedDepartureTime := connection.departureTime
     suggestedLeaveByTime := suggestedLeaveByTime
     arrivalBufferMinutes := arrivalBufferMinutes
     alertDelays := metrics.delayAlerts
     alertPlatformChanges := metrics.platformChanges
     weatherLevel := connection.weather.map (fun w => w.level)
     weatherSummary :=
       connection.weather.bind (fun w => w.reasons.head?.map (fun r => r.label)) },
   decisionScore)

/-- `formatOptionLine` from `decision.ts`. -/
def formatOptionLine (option : DecisionOption) (context : DecisionContext) : String :=
  let transferLabel :=
    if option.transfersCount = 0 then "direct"
    else
      toString option.transfersCount ++ " transfer" ++
        (if option.transfersCount > 1 then "s" else "")
  let connectionPart :=
    match option.minTransferMinutes with
    | some t => if option.transfersCount > 0 then ", " ++ toString t ++ " min connection" else ""
    | none => ""
  let reasonsPart :=
    if option.reasons.length ≠ 0 then " (" ++ joinSep ", " option.reasons ++ ")"
    else ""
  let bufferNote :=
    if context.isArrivalTime then
      match option.arrivalBufferMinutes with
      | some b => if b > 0 then " Buffer: " ++ toString b ++ " min." else ""
      | none => ""
    else ""
  let leaveByNote :=
    if context.isArrivalTime then ""
    else
      match option.suggestedLeaveByTime with
      | some t => " Leave by " ++ formatTime (some t) ++ "."
      | none => ""
  jsTrim
    (option.label ++ ": " ++ formatTime option.departureTime ++ " -> " ++
      formatTime option.arrivalTime ++ " (" ++ toString option.durationMinutes ++ " min), " ++
      transferLabel ++ connectionPart ++ ". Risk: " ++ riskLevelText option.riskLevel ++ " (" ++
      toFixed2 option.riskScore ++ ")" ++ reasonsPart ++ "." ++ bufferNote ++ leaveByNote)

/-- `buildSummaryText` from `decision.ts`. -/
def buildSummaryText (options : List DecisionOption) (context : DecisionContext)
    (constraintNote : Option String) : String :=
  if options.isEmpty then
    "No connections found from " ++ context.from_ ++ " to " ++ context.to_ ++ "."
  else
    let constraintParts :=
      (if context.isArrivalTime then
        ["Arrive by " ++ formatTime context.requestedTimeISO] ++
          (match context.arrivalBufferMinutes with
           | some b => if b = 0 then [] else ["buffer " ++ toString b ++ " min"]
           | none => [])
      else
        ["Depart around " ++ formatTime context.requestedTimeISO] ++
          (match context.departureBufferMinutes with
           | some b => if b = 0 then [] else ["leave " ++ toString b ++ " min early"]
           | none => [])) ++
      (match context.preferences.maxTransfers with
       | some m => ["max " ++ toString m ++ " transfer" ++ (if m = 1 then "" else "s")]
       | none => []) ++
      (if context.preferences.preferLowWalking then ["prefer low walking"] else []) ++
      (if context.preferences.minimizeOutdoorIfRaining then ["minimize outdoor if raining"] else [])
    let headLines :=
      [joinSep "; " constraintParts] ++
        (match constraintNote with
         | some note => if note = "" then [] else [note]
         | none => [])
    let optionLines :=
      (options.take 3).enum.map (fun p =>
        formatOptionLine
          { p.2 with label := p.2.label ++ (if p.1 = 0 then " (best)" else "") } context)
    let tailLines :=
      match options.head? with
      | none => []
      | some topOption =>
        (if context.isArrivalTime then
          let buffer :=
            match topOption.arrivalBufferMinutes with
            | some b => if b > 0 then ", buffer " ++ toString b ++ " min" else ""
            | none => ""
          ["Suggested departure: " ++ formatTime topOption.departureTime ++ buffer ++ "."]
        else
          match context.departureBufferMinutes with
          | some b =>
            if b = 0 then []
            else
              match topOption.suggestedLeaveByTime with
              | some t => ["Suggested departure: leave by " ++ formatTime (some t) ++ "."]
              | none => []
          | none => []) ++
        (let alertParts :=
          (if topOption.alertDelays.length ≠ 0 then
            ["delays: " ++ joinSep ", " topOption.alertDelays]
          else []) ++
          (if topOption.alertPlatformChanges.length ≠ 0 then
            ["platform changes: " ++ joinSep ", " topOption.alertPlatformChanges]
          else [])
        if alertParts.length ≠ 0 then
          ["Live alerts: " ++ joinSep "; " alertParts ++ "."]
        else [])
    joinSep "\n" (headLines ++ optionLines ++ tailLines)

/-- `Math.min(...xs)` over a non-empty list (only called on non-empty input). -/
def minListQ : List ℚ → ℚ
  | [] => 0
  | x :: xs => xs.foldl min x

/-- `Math.max(...xs)` over a non-empty list (only called on non-empty input). -/
def maxListQ : List ℚ → ℚ
  | [] => 0
  | x :: xs => xs.foldl max x

/-- `Math.max(1, ...xs)`. -/
def maxList1 (l : List ℚ) : ℚ := l.foldl max 1

/-- The max-transfers step of `buildDecisionSummary`: the kept candidate set
together with the advisory constraint note (the filter is dropped, and the
note attached, exactly when it would empty the set). -/
def applyMaxTransfers (maxTransfers : Option ℕ)
    (computed : List (Connection × ConnectionMetrics)) :
    List (Connection × ConnectionMetrics) × Option String :=
  match maxTransfers with
  | none => (computed, none)
  | some m =>
    let filtered0 := computed.filter (fun item => item.1.transfersCount ≤ m)
    if filtered0.isEmpty then
      (computed,
        some ("No routes within " ++ toString m ++ " transfer" ++
          (if m = 1 then "" else "s") ++ "; showing closest matches."))
    else (filtered0, none)

/-- The ranking pass of `buildDecisionSummary`: normalization bounds, per-item
scoring, stable ascending sort, rank/label reassignment. -/
def rankedOptionsOf (context : DecisionContext)
    (filtered : List (Connection × ConnectionMetrics)) : List DecisionOption :=
  let durations := filtered.map (fun item => (item.1.durationMinutes : ℚ))
  let transfers := filtered.map (fun item => (item.1.transfersCount : ℚ))
  let walking := filtered.map (fun item => (item.2.walkingMinutes : ℚ))
  let exposure := filtered.map (fun item => (item.2.exposureMinutes : ℚ))
  let minDuration := minListQ durations
  let maxDuration := maxListQ durations
  let maxTransfersObserved := maxList1 transfers
  let maxWalking := maxList1 walking
  let maxExposure := maxList1 exposure
  let optionsWithScore :=
    filtered.enum.map (fun p =>
      buildOptionEntry context minDuration maxDuration maxTransfersObserved maxWalking
        maxExposure p.1 p.2.1 p.2.2)
  let sortedEntries := optionsWithScore.mergeSort (fun a b => a.2 ≤ b.2)
  sortedEntries.enum.map (fun p =>
    { p.2.1 with rank := p.1 + 1, label := optionLabel p.1 })

/-- `buildDecisionSummary` from `decision.ts`. -/
def buildDecisionSummary (connections : List Connection) (context : DecisionContext) :
    DecisionSummary :=
  if connections.isEmpty then
    { from_ := context.from_
      to_ := context.to_
      requestedTimeISO := context.requestedTimeISO
      isArrivalTime := context.isArrivalTime
      arrivalBufferMinutes := context.arrivalBufferMinutes
      departureBufferMinutes := context.departureBufferMinutes
      constraints := context.preferences
      constraintNote := none
      options := []
      recommendedOptionId := none
      summaryText := "No connections found from " ++ context.from_ ++ " to " ++ context.to_ ++ "."
      dataCoverageRealtimeDelays := true
      dataCoveragePlatformChanges := true
      dataCoverageCancellations := false
      dataCoverageServiceNotices := false }
  else
    let computed := connections.map (fun connection => (connection, buildMetrics connection.legs))
    let fc := applyMaxTransfers context.preferences.maxTransfers computed
    let constraintNote := fc.2
    let options := rankedOptionsOf context fc.1
    { from_ := context.from_
      to_ := context.to_
      requestedTimeISO := context.requestedTimeISO
      isArrivalTime := context.isArrivalTime
      arrivalBufferMinutes := context.arrivalBufferMinutes
      departureBufferMinutes := context.departureBufferMinutes
      constraints := context.preferences
      constraintNote := constraintNote
      options := options
      recommendedOptionId := options.head?.map (fun o => o.id)
      summaryText := buildSummaryText options context constraintNote
      dataCoverageRealtimeDelays := true
      dataCoveragePlatformChanges := true
      dataCoverageCancellations := false
      dataCoverageServiceNotices := false }

/-! ## Line resolver (`src/gtfs/lookup.ts`) -/

structure GtfsRouteInfo where
  shortName : Option String
  longName : Option String
  type : Option ℤ
  agencyId : Option String

/-- The reference lookup; the JSON records are modelled as key functions. -/
structure GtfsLookup where
  routes : String → Option GtfsRouteInfo
  trips : String → Option String
  routeShortNameToId : Option (String → Option String)
  agencies : String → Option String
  defaultAgencyId : Option String

structure LineQuery where
  lineId : Option String
  category : Option String
  number : Option String
  operator : Option String

structure LineInfo where
  lineId : Option String
  lineDisplay : String
  lineType : Option String
  operator : Option String
  routeId : Option String
  source : String
  deriving DecidableEq, Repr

/-- JS truthiness of an optional string. -/
def truthyS : Option String → Bool
  | some s => s ≠ ""
  | none => false

/-- `lineId?.trim() || undefined`. -/
def trimOrNone (s : Option String) : Option String :=
  match s with
  | none => none
  | some str => if jsTrim str = "" then none else some (jsTrim str)

/-- `[category, number].filter(Boolean).join(" ").trim()`. -/
def joinedFallback (category number : Option String) : String :=
  jsTrim (joinSep " " (([category, number].filterMap id).filter (fun s => s ≠ "")))

/-- `mapRouteType` from `lookup.ts`. -/
def mapRouteType (routeType : ℤ) : String :=
  if 100 ≤ routeType ∧ routeType < 200 then "train"
  else if 700 ≤ routeType ∧ routeType < 800 then "bus"
  else if routeType = 0 then "tram"
  else if routeType = 1 then "metro"
  else if routeType = 2 then "train"
  else if routeType = 3 then "bus"
  else if routeType = 4 then "ferry"
  else if routeType = 5 then "cable_tram"
  else if routeType = 6 then "aerial_lift"
  else if routeType = 7 then "funicular"
  else if routeType = 11 then "trolleybus"
  else if routeType = 12 then "monorail"
  else "train"

/-- `upper.includes("TRAM")` (substring containment). -/
def containsSub (s pat : String) : Bool := hasInfix pat.data s.data

/-- The category heuristic (step 4 of the resolver). -/
def categoryHeuristic : Option String → Option String
  | none => none
  | some c =>
    if c = "" then none
    else
      let upper := jsToUpper c
      if jsStartsWith upper "B" then some "bus"
      else if containsSub upper "TRAM" ∨ upper = "T" then some "tram"
      else if upper ∈ ["IC", "IR", "RE", "R", "EC", "EN", "ICE", "S"] then some "train"
      else none

/-- `if (!lineType && category) ...` from the resolver. -/
def applyHeuristic (lineType : Option String) (category : Option String) : Option String :=
  match lineType with
  | some t => if t = "" then categoryHeuristic category else some t
  | none => categoryHeuristic category

/-- The route-id resolution chain of `resolveLineInfo` (trip map, then the key
as a route id, then the short-name map). -/
def resolveRouteId (lk : GtfsLookup) (lookupKey : String) : Option String :=
  if lookupKey = "" then none
  else
    let routeId1 := lk.trips lookupKey
    let routeId2 :=
      if truthyS routeId1 then routeId1
      else if (lk.routes lookupKey).isSome then some lookupKey
      else routeId1
    if truthyS routeId2 then routeId2
    else
      match lk.routeShortNameToId with
      | some m => orS (m lookupKey) routeId2
      | none => routeId2

/-- `route?.shortName || route?.longName` for a resolved route id. -/
def routeDisplayName (lk : GtfsLookup) (rid : String) : Option String :=
  match lk.routes rid with
  | some r => orS r.shortName r.longName
  | none => none

/-- The tail of `resolveLineInfo` once the route id chain has produced its
value (`routeId` is the value of the source's `routeId` variable). -/
def resolveWith (query : LineQuery) (lookup : Option GtfsLookup) (routeId : Option String) :
    LineInfo :=
  let trimmedLineId := trimOrNone query.lineId
  let fallbackDisplay := joinedFallback query.category query.number
  let lineDisplay0 := if fallbackDisplay ≠ "" then fallbackDisplay else trimmedLineId.getD ""
  let resolved : String × Option String × Option String × String :=
    match lookup, routeId with
    | some lk, some rid =>
      if rid = "" then (lineDisplay0, none, query.operator, "fallback")
      else
        let route := lk.routes rid
        let display := routeDisplayName lk rid
        let lineDisplay1 :=
          match display with
          | some d => if d = "" then lineDisplay0 else jsTrim d
          | none => lineDisplay0
        let lineType0 :=
          match route with
          | some r => r.type.map mapRouteType
          | none => none
        let agencyId :=
          orS (match route with | some r => r.agencyId | none => none) lk.defaultAgencyId
        let resolvedOperator :=
          match agencyId with
          | some aid =>
            if aid = "" then query.operator
            else
              match lk.agencies aid with
              | some nm => if nm = "" then query.operator else some nm
              | none => query.operator
          | none => query.operator
        (lineDisplay1, lineType0, resolvedOperator, "gtfs")
    | _, _ => (lineDisplay0, none, query.operator, "fallback")
  let lineDisplay2 :=
    if resolved.1 = "" then
      match trimmedLineId with
      | some t => t
      | none => fallbackDisplay
    else resolved.1
  { lineId := trimmedLineId
    lineDisplay := lineDisplay2
    lineType := applyHeuristic resolved.2.1 query.category
    operator := resolved.2.2.1
    routeId := routeId
    source := resolved.2.2.2 }

/-- `resolveLineInfo` from `lookup.ts`. -/
def resolveLineInfo (query : LineQuery) (lookup : Option GtfsLookup) : LineInfo :=
  let trimmedLineId := trimOrNone query.lineId
  let fallbackDisplay := joinedFallback query.category query.number
  let lookupKey := trimmedLineId.getD fallbackDisplay
  resolveWith query lookup
    (match lookup with
     | none => none
     | some lk => resolveRouteId lk lookupKey)

/-! ## CSV tokenizer (`scripts/build-gtfs-lookup.ts`) -/

/-- The character loop of `forEachCsvRow`. `row` and `field` are the pending
row/field accumulators (fields as character lists), `inQuotes` the quote
state; emitted rows are returned in order. -/
def csvLoop : List Char → List (List Char) → List Char → Bool → List (List (List Char))
  | [], row, field, _ =>
    if field.length > 0 ∨ row.length > 0 then
      (if (row ++ [field]).length > 0 then [row ++ [field]] else [])
    else []
  | '"' :: rest, row, field, inQuotes =>
    if inQuotes then
      match rest with
      | '"' :: rest2 => csvLoop rest2 row (field ++ ['"']) true
      | other => csvLoop other row field false
    else csvLoop rest row field true
  | ',' :: rest, row, field, inQuotes =>
    if inQuotes then csvLoop rest row (field ++ [',']) true
    else csvLoop rest (row ++ [field]) [] inQuotes
  | '\r' :: rest, row, field, inQuotes =>
    if inQuotes then csvLoop rest row (field ++ ['\r']) true
    else
      (if (row ++ [field]).length > 0 then [row ++ [field]] else []) ++
        match rest with
        | '\n' :: rest2 => csvLoop rest2 [] [] inQuotes
        | other => csvLoop other [] [] inQuotes
  | '\n' :: rest, row, field, inQuotes =>
    if inQuotes then csvLoop rest row (field ++ ['\n']) true
    else
      (if (row ++ [field]).length > 0 then [row ++ [field]] else []) ++
        csvLoop rest [] [] inQuotes
  | c :: rest, row, field, inQuotes => csvLoop rest row (field ++ [c]) inQuotes

/-- `forEachCsvRow` as a row-list producer, fields as strings. -/
def csvRows (content : String) : List (List String) :=
  (csvLoop content.toList [] [] false).map (fun row => row.map (fun f => String.mk f))

/-- Escape the characters of one field for quoted CSV output (each `"`
doubled). -/
def csvEscapeL (field : List Char) : List Char :=
  field.foldr (fun c acc => if c = '"' then '"' :: '"' :: acc else c :: acc) []

/-- Print one field always-quoted. -/
def csvQuoteL (field : List Char) : List Char := '"' :: (csvEscapeL field ++ ['"'])

/-- Print one row: quoted fields joined by commas. -/
def printRowL : List (List Char) → List Char
  | [] => []
  | [f] => csvQuoteL f
  | f :: rest => csvQuoteL f ++ ',' :: printRowL rest

/-- Print rows joined by `\n`, no trailing newline. -/
def printCsvL : List (List (List Char)) → List Char
  | [] => []
  | [r] => printRowL r
  | r :: rest => printRowL r ++ '\n' :: printCsvL rest

/-! ## Agency table parser (`scripts/build-gtfs-lookup.ts`) -/

/-- `row[0].replace(/^﻿/, "")` applied to a truthy first field. -/
def stripBom (row : List String) : List String :=
  match row with
  | [] => []
  | f :: rest =>
    if f = "" then f :: rest
    else
      match f.data with
      | c :: cs => if c = '\ufeff' then String.mk cs :: rest else f :: rest
      | [] => f :: rest

/-- JS object assignment `m[key] = value`: update in place, else append
(string-keyed JS objects preserve insertion order). -/
def recordSet (m : List (String × String)) (key value : String) : List (String × String) :=
  if m.any (fun p => p.1 = key) then
    m.map (fun p => if p.1 = key then (key, value) else p)
  else m ++ [(key, value)]

/-- `row[idx] || ""` with `idx` possibly `-1`/out of range. -/
def fieldAt (row : List String) (idx : Option ℕ) : String :=
  match idx with
  | some i => (row.get? i).getD ""
  | none => ""

structure AgencyResult where
  agencies : List (String × String)
  defaultAgencyId : Option String
  deriving DecidableEq, Repr

/-- The per-data-row step of `parseAgencies`; the state is the agency record
plus the current fallback id. -/
def agencyStep (idxId idxName : Option ℕ) (state : List (String × String) × String)
    (row : List String) : List (String × String) × String :=
  let name := jsTrim (fieldAt row idxName)
  if name = "" then state
  else
    let id :=
      match idxId with
      | some i =>
        let raw := (row.get? i).getD ""
        jsTrim (if raw = "" then state.2 else raw)
      | none => state.2
    (recordSet state.1 id name, id)

/-- `parseAgencies` from `build-gtfs-lookup.ts`, on the emitted row list. -/
def parseAgenciesRows (rows : List (List String)) : AgencyResult :=
  match rows with
  | [] => { agencies := [], defaultAgencyId := none }
  | header :: dataRows =>
    let header := stripBom header
    let idxId := header.findIdx? (fun f => f = "agency_id")
    let idxName := header.findIdx? (fun f => f = "agency_name")
    let final := dataRows.foldl (agencyStep idxId idxName) ([], "default")
    { agencies := final.1
      defaultAgencyId :=
        if final.1.length = 1 then final.1.head?.map (fun p => p.1) else none }

/-- `parseAgencies` on raw CSV text. -/
def parseAgencies (content : String) : AgencyResult :=
  parseAgenciesRows (csvRows content)

/-- The keying claim C7 describes for an id-less agency table: rows keyed by a
rotating fallback id where each new agency NAME becomes the fallback id for
the subsequent rows. -/
def claimAgencyStep (idxName : Option ℕ) (state : List (String × String) × String)
    (row : List String) : List (String × String) × String :=
  let name := jsTrim (fieldAt row idxName)
  if name = "" then state
  else (recordSet state.1 state.2 name, name)

/-- `parseAgencies` as claim C7 words it for a table without an `agency_id`
column (`defaultAgencyId` recorded iff exactly one key exists). -/
def claimParseAgenciesRows (rows : List (List String)) : AgencyResult :=
  match rows with
  | [] => { agencies := [], defaultAgencyId := none }
  | header :: dataRows =>
    let header := stripBom header
    let idxName := header.findIdx? (fun f => f = "agency_name")
    let final := dataRows.foldl (claimAgencyStep idxName) ([], "default")
    { agencies := final.1
      defaultAgencyId :=
        if final.1.length = 1 then final.1.head?.map (fun p => p.1) else none }

/-- The labels of a candidate list. -/
def labelsOf (rs : List ReasonCandidate) : List String := rs.map (fun r => r.label)

/-- Invariant carried through the candidate tiers of `buildReasons`: sorted by
priority, all priorities at most `p`, labels distinct. -/
def ReasonInv (p : ℤ) (rs : List ReasonCandidate) : Prop :=
  rs.Pairwise (fun a b => a.priority ≤ b.priority) ∧ (∀ r ∈ rs, r.priority ≤ p) ∧
    (labelsOf rs).Nodup

/-! ## Concrete inputs used by witnesses and counterexamples -/

/-- Counterexample input for C2: dry first forecast sample, wet second one. -/
def c2conn : Connection :=
  { id := "c2", departureTime := none, arrivalTime := none, durationMinutes := 10,
    transfersCount := 0, legs := [], reliability := none, reliabilityScore := none,
    weather := some { penalty := 0, level := RiskLevel.low, reasons := [],
                      samples := [⟨0, 0, 0⟩, ⟨1, 0, 0⟩] },
    tags := [] }

/-- Metrics paired with `c2conn` in the C2 counterexample. -/
def c2metrics : ConnectionMetrics :=
  { walkingMinutes := 5, transferWaitMinutesList := [], transferWaitMinutes := 0,
    minTransferMinutes := none, transferStation := none, exposureMinutes := 5,
    delayMinutesTotal := 0, delayAlerts := [], platformChanges := [] }

/-- First ride leg of the C6 witness (arrives Olten at minute 10). -/
def ride1 : Leg :=
  { type := LegType.ride,
    from_ := { name := "Zurich HB", timePlanned := some 0, timeActual := none, platform := none },
    to_ := { name := "Olten", timePlanned := some 600000, timeActual := none, platform := none },
    line := some "IC 1", delayMinutes := none }

/-- Second ride leg of the C6 witness (departs Olten at minute 15). -/
def ride2 : Leg :=
  { type := LegType.ride,
    from_ := { name := "Olten", timePlanned := some 900000, timeActual := none, platform := none },
    to_ := { name := "Bern", timePlanned := some 1800000, timeActual := none, platform := none },
    line := some "IR 16", delayMinutes := none }

/-- Empty preferences (the behaviour of an absent preferences object). -/
def noPrefs : DecisionPreferences :=
  { maxTransfers := none, preferLowWalking := false, minimizeOutdoorIfRaining := false }

/-- A concrete query context for witnesses. -/
def demoContext : DecisionContext :=
  { from_ := "Zurich HB", to_ := "Bern", requestedTimeISO := some 1700000000000,
    isArrivalTime := false, arrivalBufferMinutes := none, departureBufferMinutes := none,
    preferences := noPrefs }

/-- C8 witness connection: two transfers and a peak-time reliability flag. -/
def c8conn : Connection :=
  { id := "c8", departureTime := none, arrivalTime := none, durationMinutes := 60,
    transfersCount := 2, legs := [],
    reliability := some { score := 1/2, reasons := [{ code := "peak_time" }] },
    reliabilityScore := none, weather := none, tags := [] }

/-- C8 witness metrics: a 3-minute tightest transfer at Bern. -/
def c8metrics : ConnectionMetrics :=
  { walkingMinutes := 0, transferWaitMinutesList := [3], transferWaitMinutes := 3,
    minTransferMinutes := some 3, transferStation := some "Bern", exposureMinutes := 3,
    delayMinutesTotal := 0, delayAlerts := [], platformChanges := [] }

/-- C5 witness connections with transfer counts 0, 1 and 2. -/
def connA : Connection :=
  { id := "A", departureTime := some 0, arrivalTime := some 3600000, durationMinutes := 60,
    transfersCount := 0, legs := [], reliability := none, reliabilityScore := none,
    weather := none, tags := [] }

def connB : Connection :=
  { id := "B", departureTime := some 0, arrivalTime := some 3000000, durationMinutes := 50,
    transfersCount := 1, legs := [], reliability := none, reliabilityScore := none,
    weather := none, tags := [] }

def connC : Connection :=
  { id := "C", departureTime := some 0, arrivalTime := some 2400000, durationMinutes := 40,
    transfersCount := 2, legs := [], reliability := none, reliabilityScore := none,
    weather := none, tags := [] }

/-- C3 counterexample query: raw id and category/number both present. -/
def c3query : LineQuery :=
  { lineId := some "X", category := some "B", number := some "12", operator := none }

/-- C3 witness query: unknown identifier with category `B`, no number. -/
def c3queryB : LineQuery :=
  { lineId := some "999999", category := some "B", number := none, operator := none }

/-- Query context with a `maxTransfers = 1` preference (C5 witness). -/
def c5context : DecisionContext :=
  { from_ := "Zurich HB", to_ := "Bern", requestedTimeISO := some 1700000000000,
    isArrivalTime := false, arrivalBufferMinutes := none, departureBufferMinutes := none,
    preferences := { maxTransfers := some 1, preferLowWalking := false,
                     minimizeOutdoorIfRaining := false } }

/-! ## General lemmas -/

theorem minutesBetween_nonneg (a b : Option ℤ) : 0 ≤ minutesBetween a b := by
  rcases a with _ | a <;> rcases b with _ | b <;> simp [minutesBetween]

theorem minutesBetween_outOfOrder (a b : ℤ) (h : b ≤ a) :
    minutesBetween (some a) (some b) = 0 := by
  simp only [minutesBetween, jsRound]
  have hq : ((b : ℚ) - (a : ℚ)) / 60000 + 1/2 < 1 := by
    have hba : ((b : ℚ) - (a : ℚ)) ≤ 0 := by
      have : (b : ℚ) ≤ (a : ℚ) := by exact_mod_cast h
      linarith
    have : ((b : ℚ) - (a : ℚ)) / 60000 ≤ 0 := by
      apply div_nonpos_of_nonpos_of_nonneg hba
      norm_num
    linarith
  have hf : ⌊((b : ℚ) - (a : ℚ)) / 60000 + 1/2⌋ < 1 := by
    rw [Int.floor_lt]
    exact_mod_cast hq
  omega

theorem foldl_add_nonneg {α : Type} (g : α → ℤ) (hg : ∀ x, 0 ≤ g x) :
    ∀ (l : List α) (init : ℤ), 0 ≤ init → 0 ≤ l.foldl (fun s x => s + g x) init := by
  intro l
  induction l with
  | nil => intro init h; simpa
  | cons x xs ih =>
    intro init h
    simp only [List.foldl_cons]
    exact ih (init + g x) (by have := hg x; omega)

theorem foldl_add_mem_nonneg :
    ∀ (l : List ℤ) (init : ℤ), (∀ x ∈ l, 0 ≤ x) → 0 ≤ init →
      0 ≤ l.foldl (fun s x => s + x) init := by
  intro l
  induction l with
  | nil => intro init _ h; simpa
  | cons x xs ih =>
    intro init hmem h
    simp only [List.foldl_cons]
    exact ih (init + x) (fun y hy => hmem y (by simp [hy]))
      (by have := hmem x (by simp); omega)

theorem transferWaits_nonneg : ∀ (rl : List Leg), ∀ w ∈ transferWaitsOf rl, 0 ≤ w := by
  intro rl
  induction rl with
  | nil => simp [transferWaitsOf]
  | cons a rest ih =>
    cases rest with
    | nil => simp [transferWaitsOf]
    | cons b rest2 =>
      intro w hw
      simp only [transferWaitsOf, List.mem_cons] at hw
      rcases hw with h | h
      · subst h; exact minutesBetween_nonneg _ _
      · exact ih w h

theorem delay_fold_nonneg :
    ∀ (l : List Leg) (acc : ℤ × List String), 0 ≤ acc.1 → 0 ≤ (l.foldl delayStep acc).1 := by
  intro l
  induction l with
  | nil => intro acc h; simpa
  | cons leg rest ih =>
    intro acc h
    simp only [List.foldl_cons]
    apply ih
    simp only [delayStep]
    rcases leg.delayMinutes with _ | d
    · exact h
    · by_cases hd : d > 0
      · simp only [hd, if_true]; omega
      · simp only [hd, if_false]; exact h

/-! ## Claim theorems -/

/-- C1: for every connection, the risk score equals
`clamp((1 − reliability) + weatherPenalty × (0.3 + 0.7 × clamp(exposure/20, 0, 1))
 + tightTransferPenalty, 0, 1)` with reliability defaulting to 0.7, the weather
penalty defaulting to 0 and the tight-transfer penalty 0.12 below 6 minutes,
0.06 in `[6, 8)` and 0 otherwise; the level is `high` iff score ≥ 0.6,
`medium` iff 0.35 ≤ score < 0.6, and `low` otherwise. -/
theorem c1_risk_score_and_level (connection : Connection) (metrics : ConnectionMetrics) :
    (computeRisk connection metrics).1 =
      clamp ((1 - reliabilityOf connection) +
        weatherPenaltyOf connection *
          (3/10 + 7/10 * clamp ((metrics.exposureMinutes : ℚ) / 20) 0 1) +
        claimTightPenalty metrics.minTransferMinutes) 0 1 ∧
    ((computeRisk connection metrics).2 = RiskLevel.high ↔
      6/10 ≤ (computeRisk connection metrics).1) ∧
    ((computeRisk connection metrics).2 = RiskLevel.medium ↔
      35/100 ≤ (computeRisk connection metrics).1 ∧ (computeRisk connection metrics).1 < 6/10) ∧
    ((computeRisk connection metrics).2 = RiskLevel.low ↔
      (computeRisk connection metrics).1 < 35/100) := by
  have hpen : (match metrics.minTransferMinutes with
      | some t => if t < 6 then (12/100 : ℚ) else if t < 8 then 6/100 else 0
      | none => 0) = claimTightPenalty metrics.minTransferMinutes := by
    rcases metrics.minTransferMinutes with _ | t
    · rfl
    · simp only [claimTightPenalty]
      split_ifs <;> first | rfl | (exfalso; omega)
  have hscore : (computeRisk connection metrics).1 =
      clamp ((1 - reliabilityOf connection) +
        weatherPenaltyOf connection *
          (3/10 + 7/10 * clamp ((metrics.exposureMinutes : ℚ) / 20) 0 1) +
        claimTightPenalty metrics.minTransferMinutes) 0 1 := by
    rw [← hpen]; rfl
  have hlevel : (computeRisk connection metrics).2 =
      (if (6 : ℚ)/10 ≤ (computeRisk connection metrics).1 then RiskLevel.high
       else if (35 : ℚ)/100 ≤ (computeRisk connection metrics).1 then RiskLevel.medium
       else RiskLevel.low) := rfl
  refine ⟨hscore, ?_, ?_, ?_⟩ <;> rw [hlevel] <;> split_ifs with h1 h2 <;>
      simp only [reduceCtorEq, false_iff, true_iff, iff_true, iff_false, not_and, not_lt,
        not_le] <;>
    first
      | assumption
      | linarith
      | (intro h; linarith)
      | (constructor <;> linarith)

/-- The ranking-pass score, written as the claimed weighted mean. -/
theorem decisionScoreOf_formula
    (minDuration maxDuration maxTransfersObserved maxWalking maxExposure : ℚ)
    (preferLowWalking minimizeOutdoor : Bool)
    (connection : Connection) (metrics : ConnectionMetrics) :
    decisionScoreOf minDuration maxDuration maxTransfersObserved maxWalking maxExposure
        preferLowWalking minimizeOutdoor connection metrics =
      ((computeRisk connection metrics).1 * (55/100) +
        normalize (connection.durationMinutes : ℚ) minDuration maxDuration * (2/10) +
        normalize (connection.transfersCount : ℚ) 0 maxTransfersObserved * (1/10) +
        normalize (metrics.walkingMinutes : ℚ) 0 maxWalking *
          (if preferLowWalking then 1/10 else 0) +
        normalize (metrics.exposureMinutes : ℚ) 0 maxExposure *
          (if minimizeOutdoor && isWetWeather connection.weather then 1/10 else 0)) /
      (55/100 + 2/10 + 1/10 + (if preferLowWalking then 1/10 else 0) +
        (if minimizeOutdoor && isWetWeather connection.weather then 1/10 else 0)) := rfl

/-- C2 (amended): the decision score is the stated weighted mean, where the
exposure weight 0.1 is active iff the outdoor-minimization preference is on
AND the weather has a positive-precipitation-or-snowfall sample ANYWHERE in
its sample list (the source checks every sample, not only the first); the
active-weight sum is always positive since the risk weight 0.55 is present. -/
theorem c2_decision_score_weighted_mean
    (minDuration maxDuration maxTransfersObserved maxWalking maxExposure : ℚ)
    (preferLowWalking minimizeOutdoor : Bool)
    (connection : Connection) (metrics : ConnectionMetrics) :
    decisionScoreOf minDuration maxDuration maxTransfersObserved maxWalking maxExposure
        preferLowWalking minimizeOutdoor connection metrics =
      ((computeRisk connection metrics).1 * (55/100) +
        normalize (connection.durationMinutes : ℚ) minDuration maxDuration * (2/10) +
        normalize (connection.transfersCount : ℚ) 0 maxTransfersObserved * (1/10) +
        normalize (metrics.walkingMinutes : ℚ) 0 maxWalking *
          (if preferLowWalking then 1/10 else 0) +
        normalize (metrics.exposureMinutes : ℚ) 0 maxExposure *
          (if minimizeOutdoor && isWetWeather connection.weather then 1/10 else 0)) /
      (55/100 + 2/10 + 1/10 + (if preferLowWalking then 1/10 else 0) +
        (if minimizeOutdoor && isWetWeather connection.weather then 1/10 else 0)) ∧
    0 < 55/100 + 2/10 + 1/10 + (if preferLowWalking then (1 : ℚ)/10 else 0) +
        (if minimizeOutdoor && isWetWeather connection.weather then (1 : ℚ)/10 else 0) := by
  refine ⟨decisionScoreOf_formula _ _ _ _ _ _ _ _ _, ?_⟩
  split_ifs <;> norm_num

/-- C1 witness: level/threshold equivalence at a concrete connection. -/
theorem c1_risk_score_and_level_witness :
    ((computeRisk connA (buildMetrics [])).2 = RiskLevel.low ↔
      (computeRisk connA (buildMetrics [])).1 < 35/100) :=
  (c1_risk_score_and_level connA (buildMetrics [])).2.2.2

/-- C2 witness: the active-weight sum is positive at a concrete input. -/
theorem c2_decision_score_weighted_mean_witness :
    0 < 55/100 + 2/10 + 1/10 + (if true then (1 : ℚ)/10 else 0) +
      (if true && isWetWeather c2conn.weather then (1 : ℚ)/10 else 0) :=
  (c2_decision_score_weighted_mean 0 10 1 10 10 true true c2conn c2metrics).2

/-- C2 (counterexample): with the outdoor-minimization preference active and a
connection whose FIRST forecast sample is dry but whose second is wet, the
code's decision score (exposure weight active, because `isWetWeather` scans
every sample) differs from the score the claim prescribes (exposure weight
inactive, first sample only). -/
theorem c2_counterexample :
    decisionScoreOf 0 10 1 10 10 false true c2conn c2metrics ≠
      claimDecisionScore 0 10 1 10 10 false true c2conn c2metrics := by
  have hwet : isWetWeather c2conn.weather = true := by
    simp only [c2conn, isWetWeather, List.isEmpty_cons, Bool.false_eq_true, if_false,
      List.any_eq_true]
    refine ⟨⟨1, 0, 0⟩, by simp, ?_⟩
    simp only [decide_eq_true_eq]
    norm_num
  have hdry : claimFirstSampleWet c2conn.weather = false := by
    simp only [c2conn, claimFirstSampleWet]
    norm_num
  have hrisk : (computeRisk c2conn c2metrics).1 = 3/10 := by
    simp only [computeRisk, c2conn, c2metrics, clamp]
    norm_num
  have hcode : decisionScoreOf 0 10 1 10 10 false true c2conn c2metrics = 83/190 := by
    rw [decisionScoreOf_formula, hwet, hrisk]
    norm_num [c2conn, c2metrics, normalize, clamp, min_def, max_def]
  have hclaim : claimDecisionScore 0 10 1 10 10 false true c2conn c2metrics = 73/170 := by
    simp only [claimDecisionScore, hdry, hrisk, Bool.and_false, Bool.false_eq_true, if_false]
    norm_num [c2conn, c2metrics, normalize, clamp, min_def, max_def]
  rw [hcode, hclaim]
  norm_num

/-- C9: the decision-summary composer is deterministic — two invocations on
identical inputs yield the same summary, hence identical option ordering,
rank/label assignment and narrative text. -/
theorem c9_deterministic (connections : List Connection) (context : DecisionContext)
    (s1 s2 : DecisionSummary)
    (h1 : s1 = buildDecisionSummary connections context)
    (h2 : s2 = buildDecisionSummary connections context) :
    s1 = s2 ∧ s1.summaryText = s2.summaryText ∧ s1.options = s2.options := by
  subst h1; subst h2; exact ⟨rfl, rfl, rfl⟩

/-- C9 witness at a concrete input. -/
theorem c9_deterministic_witness :
    buildDecisionSummary [] demoContext = buildDecisionSummary [] demoContext ∧
      (buildDecisionSummary [] demoContext).summaryText =
        (buildDecisionSummary [] demoContext).summaryText ∧
      (buildDecisionSummary [] demoContext).options =
        (buildDecisionSummary [] demoContext).options :=
  c9_deterministic [] demoContext _ _ rfl rfl

theorem transferWaits_length : ∀ rl : List Leg, (transferWaitsOf rl).length = rl.length - 1 := by
  intro rl
  induction rl with
  | nil => simp [transferWaitsOf]
  | cons a rest ih =>
    cases rest with
    | nil => simp [transferWaitsOf]
    | cons b rest2 =>
      simp only [transferWaitsOf, List.length_cons] at ih ⊢
      omega

theorem transferWaits_get? :
    ∀ (rl : List Leg) (i : ℕ) (a b : Leg), rl.get? i = some a → rl.get? (i + 1) = some b →
      (transferWaitsOf rl).get? i = some (minutesBetween (arrTime a) (depTime b)) := by
  intro rl
  induction rl with
  | nil => intro i a b h; simp at h
  | cons x rest ih =>
    intro i a b ha hb
    cases rest with
    | nil =>
      cases i with
      | zero => simp at hb
      | succ n => simp at hb
    | cons y rest2 =>
      cases i with
      | zero =>
        simp only [List.get?_cons_zero] at ha
        simp only [List.get?_cons_succ, List.get?_cons_zero] at hb
        injection ha with ha
        injection hb with hb
        subst ha
        subst hb
        rfl
      | succ n =>
        simp only [List.get?_cons_succ] at ha hb
        exact ih n a b ha hb

theorem foldl_min_spec :
    ∀ (xs : List ℤ) (x : ℤ),
      (xs.foldl min x = x ∨ xs.foldl min x ∈ xs) ∧ ∀ y, (y = x ∨ y ∈ xs) → xs.foldl min x ≤ y := by
  intro xs
  induction xs with
  | nil =>
    intro x
    refine ⟨Or.inl rfl, ?_⟩
    rintro y (rfl | h)
    · simp
    · simp at h
  | cons z zs ih =>
    intro x
    simp only [List.foldl_cons]
    constructor
    · rcases (ih (min x z)).1 with h | h
      · rcases le_total x z with hxz | hzx
        · left; rw [h]; exact (min_eq_left hxz)
        · right; rw [h]; simp [min_eq_right hzx]
      · right; simp [h]
    · intro y hy
      rcases hy with heq | hy1
      · rw [heq]
        calc zs.foldl min (min x z) ≤ min x z := (ih (min x z)).2 _ (Or.inl rfl)
          _ ≤ x := min_le_left _ _
      · rcases List.mem_cons.mp hy1 with heq | hy2
        · rw [heq]
          calc zs.foldl min (min x z) ≤ min x z := (ih (min x z)).2 _ (Or.inl rfl)
            _ ≤ z := min_le_right _ _
        · exact (ih (min x z)).2 _ (Or.inr hy2)

theorem minList?_none_iff (l : List ℤ) : minList? l = none ↔ l = [] := by
  cases l <;> simp [minList?]

theorem minList?_spec (l : List ℤ) (m : ℤ) (h : minList? l = some m) :
    m ∈ l ∧ ∀ x ∈ l, m ≤ x := by
  cases l with
  | nil => simp [minList?] at h
  | cons x xs =>
    simp only [minList?, Option.some.injEq] at h
    subst h
    constructor
    · rcases (foldl_min_spec xs x).1 with h | h
      · simp [h]
      · simp [h]
    · intro y hy
      rcases List.mem_cons.mp hy with rfl | hy2
      · exact (foldl_min_spec xs y).2 _ (Or.inl rfl)
      · exact (foldl_min_spec xs x).2 _ (Or.inr hy2)

theorem findIdx?_first (p : ℤ → Bool) :
    ∀ (l : List ℤ) (i : ℕ) (a : ℤ), l.get? i = some a → p a = true →
      (∀ j, j < i → ∀ b, l.get? j = some b → p b = false) → l.findIdx? p = some i := by
  intro l
  induction l with
  | nil => intro i a h; simp at h
  | cons x xs ih =>
    intro i a ha hp hfirst
    cases i with
    | zero =>
      simp only [List.get?_cons_zero, Option.some.injEq] at ha
      subst ha
      simp [List.findIdx?_cons, hp]
    | succ n =>
      have hx : p x = false := hfirst 0 (Nat.succ_pos n) x rfl
      simp only [List.get?_cons_succ] at ha
      have := ih n a ha hp (fun j hj b hb => hfirst (j + 1) (by omega) b (by simpa using hb))
      simp [List.findIdx?_cons, hx, this]

/-- C6: the transfer-wait list has one entry per adjacent pair of ride legs
(`max(0, rideLegCount − 1)` entries), each being the minutes from the previous
ride's actual-or-planned arrival to the next ride's actual-or-planned
departure; the minimum transfer wait is its least element (undefined without
transfers); the transfer station is the arrival-station name of the ride leg
preceding the first transfer achieving that minimum, first occurrence winning
ties. -/
theorem c6_transfer_wait_structure (legs : List Leg) :
    (buildMetrics legs).transferWaitMinutesList.length = (rideLegsOf legs).length - 1 ∧
    (∀ i a b, (rideLegsOf legs).get? i = some a → (rideLegsOf legs).get? (i + 1) = some b →
      (buildMetrics legs).transferWaitMinutesList.get? i =
        some (minutesBetween (arrTime a) (depTime b))) ∧
    ((buildMetrics legs).minTransferMinutes = none ↔
      (buildMetrics legs).transferWaitMinutesList = []) ∧
    (∀ mn, (buildMetrics legs).minTransferMinutes = some mn →
      mn ∈ (buildMetrics legs).transferWaitMinutesList ∧
        ∀ w ∈ (buildMetrics legs).transferWaitMinutesList, mn ≤ w) ∧
    (∀ mn i, (buildMetrics legs).minTransferMinutes = some mn →
      (buildMetrics legs).transferWaitMinutesList.get? i = some mn →
      (∀ j, j < i → (buildMetrics legs).transferWaitMinutesList.get? j ≠ some mn) →
      (buildMetrics legs).transferStation =
        ((rideLegsOf legs).get? i).map (fun leg => leg.to_.name)) ∧
    ((buildMetrics legs).transferWaitMinutesList = [] →
      (buildMetrics legs).transferStation = none) := by
  have hlist : (buildMetrics legs).transferWaitMinutesList =
      transferWaitsOf (rideLegsOf legs) := rfl
  have hmin : (buildMetrics legs).minTransferMinutes =
      minList? (transferWaitsOf (rideLegsOf legs)) := rfl
  have hstation : (buildMetrics legs).transferStation =
      ((transferWaitsOf (rideLegsOf legs)).findIdx?
          (fun minutes => minList? (transferWaitsOf (rideLegsOf legs)) = some minutes)).bind
        (fun i => ((rideLegsOf legs).get? i).map (fun leg => leg.to_.name)) := rfl
  refine ⟨?_, ?_, ?_, ?_, ?_, ?_⟩
  · rw [hlist, transferWaits_length]
  · intro i a b ha hb
    rw [hlist]
    exact transferWaits_get? _ i a b ha hb
  · rw [hmin, hlist]
    exact minList?_none_iff _
  · intro mn h
    rw [hmin] at h
    rw [hlist]
    exact minList?_spec _ mn h
  · intro mn i h hget hfirst
    rw [hmin] at h
    rw [hlist] at hget hfirst
    rw [hstation]
    have hidx : (transferWaitsOf (rideLegsOf legs)).findIdx?
        (fun minutes => minList? (transferWaitsOf (rideLegsOf legs)) = some minutes) = some i := by
      apply findIdx?_first _ _ i mn hget
      · simp [h]
      · intro j hj b hb
        have hne := hfirst j hj
        rw [hb] at hne
        simp only [h, decide_eq_false_iff_not, Option.some.injEq]
        intro hc
        exact hne (by rw [hc])
    rw [hidx]
    rfl
  · intro h
    rw [hlist] at h
    rw [hstation, h]
    simp [List.findIdx?]

/-- C6 witness: two ride legs with a 5-minute gap at Olten. -/
theorem c6_transfer_wait_structure_witness :
    (buildMetrics [ride1, ride2]).transferWaitMinutesList.get? 0 =
      some (minutesBetween (arrTime ride1) (depTime ride2)) ∧
    (buildMetrics [ride1, ride2]).transferStation = some "Olten" := by
  have hwaits : (buildMetrics [ride1, ride2]).transferWaitMinutesList = [5] := by
    show transferWaitsOf (rideLegsOf [ride1, ride2]) = [5]
    show [minutesBetween (arrTime ride1) (depTime ride2)] = [5]
    norm_num [ride1, ride2, arrTime, depTime, orT, minutesBetween, jsRound]
  have hmin : (buildMetrics [ride1, ride2]).minTransferMinutes = some 5 := by
    show minList? (transferWaitsOf (rideLegsOf [ride1, ride2])) = some 5
    have h5 : transferWaitsOf (rideLegsOf [ride1, ride2]) = [5] := hwaits
    rw [h5]
    rfl
  refine ⟨(c6_transfer_wait_structure [ride1, ride2]).2.1 0 ride1 ride2 rfl rfl, ?_⟩
  have hs := (c6_transfer_wait_structure [ride1, ride2]).2.2.2.2.1 5 0 hmin
    (by rw [hwaits]; rfl) (fun j hj => absurd hj (Nat.not_lt_zero j))
  exact hs.trans rfl

/-- C10: every numeric field of the computed metrics is non-negative — walking
minutes, each transfer-wait entry, the transfer-wait sum, exposure minutes and
the delay total — and an out-of-order pair of timestamps contributes a wait of
0, never a negative value. -/
theorem c10_metrics_nonneg (legs : List Leg) :
    0 ≤ (buildMetrics legs).walkingMinutes ∧
    (∀ w ∈ (buildMetrics legs).transferWaitMinutesList, 0 ≤ w) ∧
    0 ≤ (buildMetrics legs).transferWaitMinutes ∧
    0 ≤ (buildMetrics legs).exposureMinutes ∧
    0 ≤ (buildMetrics legs).delayMinutesTotal ∧
    (∀ a b : ℤ, b ≤ a → minutesBetween (some a) (some b) = 0) := by
  have hwalk : 0 ≤ (buildMetrics legs).walkingMinutes :=
    foldl_add_nonneg (fun leg => minutesBetween (depTime leg) (arrTime leg))
      (fun leg => minutesBetween_nonneg _ _) (walkLegsOf legs) 0 le_rfl
  have hlist : ∀ w ∈ (buildMetrics legs).transferWaitMinutesList, 0 ≤ w :=
    fun w hw => transferWaits_nonneg (rideLegsOf legs) w hw
  have hsum : 0 ≤ (buildMetrics legs).transferWaitMinutes :=
    foldl_add_mem_nonneg _ 0 hlist le_rfl
  refine ⟨hwalk, hlist, hsum, ?_, ?_, fun a b h => minutesBetween_outOfOrder a b h⟩
  · have : (buildMetrics legs).exposureMinutes =
        (buildMetrics legs).walkingMinutes + (buildMetrics legs).transferWaitMinutes := rfl
    omega
  · exact delay_fold_nonneg (rideLegsOf legs) (0, []) le_rfl

/-- C10 witness: a ride departing before the previous ride arrives yields a
zero (not negative) wait. -/
theorem c10_metrics_nonneg_witness : minutesBetween (some 120000) (some 60000) = 0 :=
  (c10_metrics_nonneg []).2.2.2.2.2 120000 60000 (by norm_num)

theorem ReasonInv.weaken {p q : ℤ} (hpq : p ≤ q) {rs : List ReasonCandidate}
    (h : ReasonInv p rs) : ReasonInv q rs :=
  ⟨h.1, fun r hr => le_trans (h.2.1 r hr) hpq, h.2.2⟩

theorem ReasonInv.nil (p : ℤ) : ReasonInv p [] := by
  refine ⟨List.Pairwise.nil, ?_, ?_⟩ <;> simp [labelsOf]

theorem ReasonInv.push {p : ℤ} {rs : List ReasonCandidate} (q : ℤ) (hpq : p ≤ q)
    (h : ReasonInv p rs) (l : Option String) : ReasonInv q (addReason rs l q) := by
  obtain ⟨hs, hb, hn⟩ := h
  have hbq : ∀ r ∈ rs, r.priority ≤ q := fun r hr => le_trans (hb r hr) hpq
  rcases l with _ | l
  · exact ⟨hs, hbq, hn⟩
  · simp only [addReason]
    split_ifs with h1 h2
    · exact ⟨hs, hbq, hn⟩
    · exact ⟨hs, hbq, hn⟩
    · refine ⟨?_, ?_, ?_⟩
      · rw [List.pairwise_append]
        refine ⟨hs, List.pairwise_singleton _ _, ?_⟩
        intro a ha b hb2
        simp only [List.mem_singleton] at hb2
        subst hb2
        exact hbq a ha
      · intro r hr
        rcases List.mem_append.mp hr with hm | hm
        · exact hbq r hm
        · simp only [List.mem_singleton] at hm
          subst hm
          exact le_refl q
      · simp only [labelsOf, List.map_append, List.map_cons, List.map_nil]
        rw [List.nodup_append]
        refine ⟨hn, List.nodup_singleton _, ?_⟩
        intro x hx hx2
        simp only [List.mem_singleton] at hx2
        subst hx2
        simp only [List.mem_map] at hx
        rcases hx with ⟨r, hr, hrl⟩
        exact h2 (List.any_eq_true.mpr ⟨r, hr, by simp [hrl]⟩)

theorem reasonStep1_inv (metrics : ConnectionMetrics) : ReasonInv 1 (reasonStep1 metrics) := by
  unfold reasonStep1
  split
  · split_ifs
    · exact (ReasonInv.nil 1).push 1 le_rfl _
    · exact ReasonInv.nil 1
  · exact ReasonInv.nil 1

theorem reasonStep2_inv (metrics : ConnectionMetrics) {rs : List ReasonCandidate}
    (h : ReasonInv 1 rs) : ReasonInv 2 (reasonStep2 metrics rs) := by
  unfold reasonStep2
  split_ifs
  · exact h.push 2 (by norm_num) _
  · exact h.weaken (by norm_num)

theorem weatherReasonFallback_inv (connection : Connection) {p : ℤ}
    {rs : List ReasonCandidate} (h : ReasonInv p rs) (hp : p ≤ 4) :
    ReasonInv 4 (weatherReasonFallback connection rs) := by
  unfold weatherReasonFallback
  split
  · split
    · exact h.push 4 hp _
    · exact h.weaken hp
  · exact h.weaken hp

theorem reasonStep34_inv (connection : Connection) (metrics : ConnectionMetrics)
    {rs : List ReasonCandidate} (h : ReasonInv 2 rs) :
    ReasonInv 4 (reasonStep34 connection metrics rs) := by
  unfold reasonStep34
  split
  · split_ifs
    · exact (h.push 3 (by norm_num) _).weaken (by norm_num)
    · exact weatherReasonFallback_inv connection h (by norm_num)
  · exact weatherReasonFallback_inv connection h (by norm_num)

theorem reasonStep5_inv (metrics : ConnectionMetrics) (preferences : DecisionPreferences)
    {rs : List ReasonCandidate} (h : ReasonInv 4 rs) :
    ReasonInv 5 (reasonStep5 metrics preferences rs) := by
  simp only [reasonStep5]
  split_ifs <;>
    first
      | exact h.push _ (by norm_num) _
      | exact h.weaken (by norm_num)

theorem reasonStep6_inv (connection : Connection) {rs : List ReasonCandidate}
    (h : ReasonInv 5 rs) : ReasonInv 6 (reasonStep6 connection rs) := by
  simp only [reasonStep6]
  split_ifs <;>
    first
      | exact h.push _ (by norm_num) _
      | exact h.weaken (by norm_num)

theorem reasonStep7_inv (metrics : ConnectionMetrics) {rs : List ReasonCandidate}
    (h : ReasonInv 6 rs) : ReasonInv 7 (reasonStep7 metrics rs) := by
  simp only [reasonStep7]
  split_ifs <;>
    first
      | exact h.push _ (by norm_num) _
      | exact h.weaken (by norm_num)

theorem reasonStep8_inv (connection : Connection) {rs : List ReasonCandidate}
    (h : ReasonInv 7 rs) : ReasonInv 8 (reasonStep8 connection rs) := by
  simp only [reasonStep8]
  split_ifs <;>
    first
      | exact h.push _ (by norm_num) _
      | exact h.weaken (by norm_num)

theorem reasonCandidates_inv (connection : Connection) (metrics : ConnectionMetrics)
    (preferences : DecisionPreferences) :
    ReasonInv 8 (buildReasonCandidates connection metrics preferences) :=
  reasonStep8_inv connection
    (reasonStep7_inv metrics
      (reasonStep6_inv connection
        (reasonStep5_inv metrics preferences
          (reasonStep34_inv connection metrics
            (reasonStep2_inv metrics (reasonStep1_inv metrics))))))

/-- The candidates are always already priority-sorted, so the stable sort is
the identity on them. -/
theorem reasonsRanked_eq (connection : Connection) (metrics : ConnectionMetrics)
    (preferences : DecisionPreferences) :
    buildReasonsRanked connection metrics preferences =
      buildReasonCandidates connection metrics preferences := by
  unfold buildReasonsRanked
  apply List.mergeSort_of_sorted
  have h := (reasonCandidates_inv connection metrics preferences).1
  exact h.imp (fun hab => by simpa using hab)

theorem pairwise_priority_order {rs : List ReasonCandidate}
    (h : rs.Pairwise (fun a b => a.priority ≤ b.priority)) (i j : ℕ)
    (ra rb : ReasonCandidate) (hi : rs.get? i = some ra) (hj : rs.get? j = some rb)
    (h8 : ra.priority = 8) (h1 : rb.priority = 1) : j < i := by
  rcases List.get?_eq_some.mp hi with ⟨hilen, hgi⟩
  rcases List.get?_eq_some.mp hj with ⟨hjlen, hgj⟩
  rcases lt_trichotomy i j with hij | hij | hij
  · exfalso
    have hle := List.pairwise_iff_get.mp h ⟨i, hilen⟩ ⟨j, hjlen⟩ hij
    rw [hgi, hgj] at hle
    omega
  · exfalso
    subst hij
    have : ra = rb := by rw [← hgi, hgj]
    subst this
    omega
  · exact hij

/-- C8: the selected reason list has length at most 3 and no duplicate labels,
the ranked prefix it is drawn from is ordered by non-decreasing priority tier,
and in particular a tier-8 ("rush hour") entry never precedes a present tier-1
(tight-transfer) entry. -/
theorem c8_reason_list (connection : Connection) (metrics : ConnectionMetrics)
    (preferences : DecisionPreferences) :
    (buildReasons connection metrics preferences).length ≤ 3 ∧
    (buildReasons connection metrics preferences).Nodup ∧
    ((buildReasonsRanked connection metrics preferences).take 3).Pairwise
      (fun a b => a.priority ≤ b.priority) ∧
    (∀ i j ra rb,
      ((buildReasonsRanked connection metrics preferences).take 3).get? i = some ra →
      ((buildReasonsRanked connection metrics preferences).take 3).get? j = some rb →
      ra.priority = 8 → rb.priority = 1 → j < i) := by
  obtain ⟨hsorted, _, hnodup⟩ := reasonCandidates_inv connection metrics preferences
  have hranked := reasonsRanked_eq connection metrics preferences
  have hsortedRanked : (buildReasonsRanked connection metrics preferences).Pairwise
      (fun a b => a.priority ≤ b.priority) := by rw [hranked]; exact hsorted
  have htake : ((buildReasonsRanked connection metrics preferences).take 3).Pairwise
      (fun a b => a.priority ≤ b.priority) :=
    hsortedRanked.sublist (List.take_sublist _ _)
  refine ⟨?_, ?_, htake, ?_⟩
  · simp only [buildReasons, List.length_map, List.length_take]
    omega
  · have hlabels : (buildReasonsRanked connection metrics preferences).map
        (fun r => r.label) = labelsOf (buildReasonCandidates connection metrics preferences) := by
      rw [hranked]; rfl
    show (((buildReasonsRanked connection metrics preferences).take 3).map
      (fun r => r.label)).Nodup
    rw [List.map_take, hlabels]
    exact hnodup.sublist (List.take_sublist _ _)
  · intro i j ra rb hi hj h8 h1
    exact pairwise_priority_order htake i j ra rb hi hj h8 h1

/-- C8 witness: a connection carrying both a tight transfer (tier 1) and a
rush-hour flag (tier 8); the rush-hour entry sits at index 2, after the
tight-transfer entry at index 0. -/
theorem c8_reason_list_witness :
    (buildReasons c8conn c8metrics noPrefs).length ≤ 3 ∧ (0 : ℕ) < 2 := by
  have hcand : buildReasonCandidates c8conn c8metrics noPrefs =
      [⟨"3 min transfer at Bern", 1⟩, ⟨"2 transfers", 6⟩, ⟨"rush hour", 8⟩] := by decide
  have htake : (buildReasonsRanked c8conn c8metrics noPrefs).take 3 =
      [⟨"3 min transfer at Bern", 1⟩, ⟨"2 transfers", 6⟩, ⟨"rush hour", 8⟩] := by
    rw [reasonsRanked_eq, hcand]
    rfl
  refine ⟨(c8_reason_list c8conn c8metrics noPrefs).1,
    (c8_reason_list c8conn c8metrics noPrefs).2.2.2 2 0 ⟨"rush hour", 8⟩
      ⟨"3 min transfer at Bern", 1⟩ ?_ ?_ rfl rfl⟩
  · rw [htake]
    rfl
  · rw [htake]
    rfl

theorem enum_map_comp {α β : Type} (h : α → β) (l : List α) :
    l.enum.map (fun p => h p.2) = l.map h := by
  rw [show (fun p : ℕ × α => h p.2) = h ∘ Prod.snd from rfl, ← List.map_map]
  show (List.map Prod.snd (List.enumFrom 0 l)).map h = l.map h
  rw [List.enumFrom_map_snd]

/-- The ranked options carry exactly the ids of the candidate set (the sort is
a permutation, rank/label reassignment does not touch the id). -/
theorem rankedOptions_ids (context : DecisionContext)
    (filtered : List (Connection × ConnectionMetrics)) :
    ((rankedOptionsOf context filtered).map (fun o => o.id)).Perm
      (filtered.map (fun item => item.1.id)) := by
  unfold rankedOptionsOf
  rw [List.map_map]
  rw [show ((fun o : DecisionOption => o.id) ∘
      (fun p : ℕ × (DecisionOption × ℚ) =>
        { p.2.1 with rank := p.1 + 1, label := optionLabel p.1 })) =
      (fun p : ℕ × (DecisionOption × ℚ) => p.2.1.id) from rfl]
  rw [enum_map_comp (fun e : DecisionOption × ℚ => e.1.id)]
  refine ((List.mergeSort_perm _ _).map _).trans ?_
  rw [List.map_map]
  rw [show ((fun e : DecisionOption × ℚ => e.1.id) ∘
      (fun p : ℕ × (Connection × ConnectionMetrics) =>
        buildOptionEntry context (minListQ (filtered.map (fun item => (item.1.durationMinutes : ℚ))))
          (maxListQ (filtered.map (fun item => (item.1.durationMinutes : ℚ))))
          (maxList1 (filtered.map (fun item => (item.1.transfersCount : ℚ))))
          (maxList1 (filtered.map (fun item => (item.2.walkingMinutes : ℚ))))
          (maxList1 (filtered.map (fun item => (item.2.exposureMinutes : ℚ))))
          p.1 p.2.1 p.2.2)) =
      (fun p : ℕ × (Connection × ConnectionMetrics) => p.2.1.id) from rfl]
  rw [enum_map_comp (fun item : Connection × ConnectionMetrics => item.1.id)]

theorem rankedOptions_length (context : DecisionContext)
    (filtered : List (Connection × ConnectionMetrics)) :
    (rankedOptionsOf context filtered).length = filtered.length := by
  have h := (rankedOptions_ids context filtered).length_eq
  simpa using h

theorem applyMaxTransfers_kept (m : ℕ) (computed : List (Connection × ConnectionMetrics))
    (h : computed.filter (fun item => item.1.transfersCount ≤ m) ≠ []) :
    applyMaxTransfers (some m) computed =
      (computed.filter (fun item => item.1.transfersCount ≤ m), none) := by
  simp only [applyMaxTransfers]
  rw [if_neg (by simpa [List.isEmpty_iff] using h)]

theorem applyMaxTransfers_dropped (m : ℕ) (computed : List (Connection × ConnectionMetrics))
    (h : computed.filter (fun item => item.1.transfersCount ≤ m) = []) :
    applyMaxTransfers (some m) computed =
      (computed,
        some ("No routes within " ++ toString m ++ " transfer" ++
          (if m = 1 then "" else "s") ++ "; showing closest matches.")) := by
  simp only [applyMaxTransfers]
  rw [if_pos (by simp [List.isEmpty_iff, h])]

/-- C5: with a non-empty connection list and a requested max-transfers limit,
either some connection satisfies the limit — then exactly the satisfying
connections are ranked and no constraint note is attached — or none does —
then the full set is ranked and a note is attached; the option list is never
empty. -/
theorem c5_max_transfers_advisory (connections : List Connection) (context : DecisionContext)
    (m : ℕ) (hne : connections ≠ [])
    (hmax : context.preferences.maxTransfers = some m) :
    ((∃ c ∈ connections, c.transfersCount ≤ m) →
      (buildDecisionSummary connections context).constraintNote = none ∧
      ((buildDecisionSummary connections context).options.map (fun o => o.id)).Perm
        ((connections.filter (fun c => c.transfersCount ≤ m)).map (fun c => c.id))) ∧
    ((∀ c ∈ connections, ¬ c.transfersCount ≤ m) →
      (buildDecisionSummary connections context).constraintNote.isSome = true ∧
      ((buildDecisionSummary connections context).options.map (fun o => o.id)).Perm
        (connections.map (fun c => c.id))) ∧
    (buildDecisionSummary connections context).options ≠ [] := by
  have hie : connections.isEmpty = false := List.isEmpty_eq_false.mpr hne
  have hopt : (buildDecisionSummary connections context).options =
      rankedOptionsOf context (applyMaxTransfers context.preferences.maxTransfers
        (connections.map (fun c => (c, buildMetrics c.legs)))).1 := by
    unfold buildDecisionSummary
    rw [hie]
    rfl
  have hnote : (buildDecisionSummary connections context).constraintNote =
      (applyMaxTransfers context.preferences.maxTransfers
        (connections.map (fun c => (c, buildMetrics c.legs)))).2 := by
    unfold buildDecisionSummary
    rw [hie]
    rfl
  have hfm : (connections.map (fun c => (c, buildMetrics c.legs))).filter
        (fun item => item.1.transfersCount ≤ m) =
      (connections.filter (fun c => c.transfersCount ≤ m)).map
        (fun c => (c, buildMetrics c.legs)) := by
    rw [List.filter_map]
    rfl
  constructor
  · rintro ⟨c, hc, hcm⟩
    have hfne : (connections.map (fun c => (c, buildMetrics c.legs))).filter
        (fun item => item.1.transfersCount ≤ m) ≠ [] := by
      rw [hfm]
      intro hnil
      have hmem : c ∈ connections.filter (fun c => c.transfersCount ≤ m) :=
        List.mem_filter.mpr ⟨hc, by simpa using hcm⟩
      rw [List.map_eq_nil_iff.mp hnil] at hmem
      simp at hmem
    rw [hopt, hnote, hmax, applyMaxTransfers_kept m _ hfne]
    refine ⟨rfl, ?_⟩
    refine (rankedOptions_ids context _).trans ?_
    rw [hfm, List.map_map]
    rfl
  constructor
  · intro hall
    have hfnil : (connections.map (fun c => (c, buildMetrics c.legs))).filter
        (fun item => item.1.transfersCount ≤ m) = [] := by
      rw [hfm, List.filter_eq_nil_iff.mpr (fun c hc => by simpa using hall c hc)]
      rfl
    rw [hopt, hnote, hmax, applyMaxTransfers_dropped m _ hfnil]
    refine ⟨rfl, ?_⟩
    refine (rankedOptions_ids context _).trans ?_
    rw [List.map_map]
    rfl
  · intro hnil
    have hlen : (buildDecisionSummary connections context).options.length = 0 := by
      rw [hnil]
      rfl
    rw [hopt, rankedOptions_length] at hlen
    by_cases hcase : (connections.map (fun c => (c, buildMetrics c.legs))).filter
        (fun item => item.1.transfersCount ≤ m) = []
    · rw [hmax, applyMaxTransfers_dropped m _ hcase] at hlen
      simp only [List.length_map] at hlen
      exact hne (List.length_eq_zero.mp hlen)
    · rw [hmax, applyMaxTransfers_kept m _ hcase] at hlen
      exact hcase (List.length_eq_zero.mp hlen)

/-- C5 witness: transfer counts {0, 1, 2} with `maxTransfers = 1` — the
2-transfer connection is excluded and no note is attached. -/
theorem c5_max_transfers_advisory_witness :
    (buildDecisionSummary [connA, connB, connC] c5context).constraintNote = none ∧
    ((buildDecisionSummary [connA, connB, connC] c5context).options.map
        (fun o => o.id)).Perm
      (([connA, connB, connC].filter (fun c => c.transfersCount ≤ 1)).map (fun c => c.id)) :=
  (c5_max_transfers_advisory [connA, connB, connC] c5context 1
      (List.cons_ne_nil _ _) rfl).1
    ⟨connA, List.mem_cons_self _ _, by decide⟩

theorem trimOrNone_ne (x : Option String) (t : String) (h : trimOrNone x = some t) : t ≠ "" := by
  rcases x with _ | s
  · simp [trimOrNone] at h
  · simp only [trimOrNone] at h
    split_ifs at h with hs
    intro hc
    subst hc
    apply hs
    simpa using h

theorem resolveWith_routeId (query : LineQuery) (lookup : Option GtfsLookup)
    (rid? : Option String) : (resolveWith query lookup rid?).routeId = rid? := by
  rcases lookup with _ | lk <;> rcases rid? with _ | rid <;> rfl

theorem resolveWith_fallback (query : LineQuery) (lookup : Option GtfsLookup)
    (rid? : Option String)
    (h : lookup = none ∨ rid? = none ∨ rid? = some "") :
    (resolveWith query lookup rid?).source = "fallback" ∧
    (resolveWith query lookup rid?).lineDisplay =
      (if joinedFallback query.category query.number ≠ ""
       then joinedFallback query.category query.number
       else (trimOrNone query.lineId).getD "") := by
  have htid := trimOrNone_ne query.lineId
  rcases lookup with _ | lk <;> rcases rid? with _ | rid
  · refine ⟨rfl, ?_⟩
    simp only [resolveWith]
    rcases htr : trimOrNone query.lineId with _ | t
    · by_cases hfb : joinedFallback query.category query.number = "" <;> simp [hfb]
    · have htne := htid t htr
      by_cases hfb : joinedFallback query.category query.number = "" <;> simp [hfb, htne]
  · refine ⟨rfl, ?_⟩
    simp only [resolveWith]
    rcases htr : trimOrNone query.lineId with _ | t
    · by_cases hfb : joinedFallback query.category query.number = "" <;> simp [hfb]
    · have htne := htid t htr
      by_cases hfb : joinedFallback query.category query.number = "" <;> simp [hfb, htne]
  · refine ⟨rfl, ?_⟩
    simp only [resolveWith]
    rcases htr : trimOrNone query.lineId with _ | t
    · by_cases hfb : joinedFallback query.category query.number = "" <;> simp [hfb]
    · have htne := htid t htr
      by_cases hfb : joinedFallback query.category query.number = "" <;> simp [hfb, htne]
  · have h0 : rid = "" := by simpa using h
    subst h0
    refine ⟨rfl, ?_⟩
    simp only [resolveWith]
    simp only [if_true]
    rcases htr : trimOrNone query.lineId with _ | t
    · by_cases hfb : joinedFallback query.category query.number = "" <;> simp [hfb]
    · have htne := htid t htr
      by_cases hfb : joinedFallback query.category query.number = "" <;> simp [hfb, htne]

theorem resolveWith_source_gtfs (query : LineQuery) (lk : GtfsLookup) (rid : String)
    (h : rid ≠ "") : (resolveWith query (some lk) (some rid)).source = "gtfs" := by
  simp only [resolveWith]
  rw [if_neg h]

theorem resolveWith_display_gtfs_named (query : LineQuery) (lk : GtfsLookup) (rid s : String)
    (h : rid ≠ "") (hs : routeDisplayName lk rid = some s) (hs0 : s ≠ "") :
    (resolveWith query (some lk) (some rid)).lineDisplay =
      (if jsTrim s = ""
       then (trimOrNone query.lineId).getD (joinedFallback query.category query.number)
       else jsTrim s) := by
  simp only [resolveWith]
  rw [if_neg h]
  simp only [hs]
  simp only [if_neg hs0]
  by_cases ht : jsTrim s = ""
  · rw [if_pos ht, if_pos ht]
    rcases htr : trimOrNone query.lineId with _ | t <;> rfl
  · rw [if_neg ht, if_neg ht]

theorem resolveWith_display_gtfs_unnamed (query : LineQuery) (lk : GtfsLookup) (rid : String)
    (h : rid ≠ "")
    (hs : routeDisplayName lk rid = none ∨ routeDisplayName lk rid = some "") :
    (resolveWith query (some lk) (some rid)).lineDisplay =
      (if joinedFallback query.category query.number ≠ ""
       then joinedFallback query.category query.number
       else (trimOrNone query.lineId).getD "") := by
  have htid := trimOrNone_ne query.lineId
  simp only [resolveWith]
  rw [if_neg h]
  rcases hs with hs | hs
  · simp only [hs]
    rcases htr : trimOrNone query.lineId with _ | t
    · by_cases hfb : joinedFallback query.category query.number = "" <;> simp [hfb]
    · have htne := htid t htr
      by_cases hfb : joinedFallback query.category query.number = "" <;> simp [hfb, htne]
  · simp only [hs]
    rcases htr : trimOrNone query.lineId with _ | t
    · by_cases hfb : joinedFallback query.category query.number = "" <;> simp [hfb]
    · have htne := htid t htr
      by_cases hfb : joinedFallback query.category query.number = "" <;> simp [hfb, htne]

/-- C3 (counterexample): with no reference lookup, raw identifier `"X"` and
category/number `"B"`/`"12"`: no route id is found and the raw trimmed
identifier `"X"` is non-empty, yet the resolver returns the category+number
join `"B 12"`, not the raw identifier the claim's fallback order (raw
identifier before the join) prescribes. -/
theorem c3_counterexample :
    (resolveLineInfo c3query none).routeId = none ∧
    trimOrNone c3query.lineId = some "X" ∧
    (resolveLineInfo c3query none).lineDisplay = "B 12" ∧
    "B 12" ≠ "X" :=
  ⟨rfl, by decide, by decide, by decide⟩

/-- C3 (amended): the display string falls back, in order, to the
reference-resolved route name (short preferred over long, trimmed, when a
route id was found and the name is non-blank), then the category+number join,
then the raw trimmed identifier, then the empty string — the claim's order of
the last two is swapped; on the edge where the resolved name is non-empty but
all whitespace, the raw identifier is preferred over the join. -/
theorem c3_display_fallback_order (query : LineQuery) (lookup : Option GtfsLookup) :
    ((resolveLineInfo query lookup).source = "fallback" →
      (resolveLineInfo query lookup).lineDisplay =
        (if joinedFallback query.category query.number ≠ ""
         then joinedFallback query.category query.number
         else (trimOrNone query.lineId).getD "")) ∧
    (∀ lk rid, lookup = some lk → (resolveLineInfo query lookup).routeId = some rid →
      rid ≠ "" →
      (resolveLineInfo query lookup).source = "gtfs" ∧
      (∀ s, routeDisplayName lk rid = some s → s ≠ "" → jsTrim s ≠ "" →
        (resolveLineInfo query lookup).lineDisplay = jsTrim s) ∧
      (∀ s, routeDisplayName lk rid = some s → s ≠ "" → jsTrim s = "" →
        (resolveLineInfo query lookup).lineDisplay =
          (trimOrNone query.lineId).getD (joinedFallback query.category query.number)) ∧
      ((routeDisplayName lk rid = none ∨ routeDisplayName lk rid = some "") →
        (resolveLineInfo query lookup).lineDisplay =
          (if joinedFallback query.category query.number ≠ ""
           then joinedFallback query.category query.number
           else (trimOrNone query.lineId).getD ""))) ∧
    ((resolveLineInfo query lookup).source = "gtfs" ∨
      (resolveLineInfo query lookup).source = "fallback") := by
  rcases lookup with _ | lk
  · have hRL : resolveLineInfo query none = resolveWith query none none := rfl
    rw [hRL]
    have hfb := resolveWith_fallback query none none (Or.inl rfl)
    refine ⟨fun _ => hfb.2, ?_, Or.inr hfb.1⟩
    intro lk rid hlk
    simp at hlk
  · have hRL : resolveLineInfo query (some lk) = resolveWith query (some lk)
        (resolveRouteId lk
          ((trimOrNone query.lineId).getD (joinedFallback query.category query.number))) := rfl
    rw [hRL]
    rcases hr : resolveRouteId lk
        ((trimOrNone query.lineId).getD (joinedFallback query.category query.number))
      with _ | rid
    · have hfb := resolveWith_fallback query (some lk) none (Or.inr (Or.inl rfl))
      refine ⟨fun _ => hfb.2, ?_, Or.inr hfb.1⟩
      intro lk2 rid hlk hrid
      rw [resolveWith_routeId] at hrid
      simp at hrid
    · by_cases h0 : rid = ""
      · subst h0
        have hfb := resolveWith_fallback query (some lk) (some "") (Or.inr (Or.inr rfl))
        refine ⟨fun _ => hfb.2, ?_, Or.inr hfb.1⟩
        intro lk2 rid2 hlk hrid hne
        rw [resolveWith_routeId] at hrid
        injection hrid with hrid
        exact absurd hrid.symm hne
      · refine ⟨fun hsrc => ?_, ?_, Or.inl (resolveWith_source_gtfs query lk rid h0)⟩
        · rw [resolveWith_source_gtfs query lk rid h0] at hsrc
          exact absurd hsrc (by decide)
        · intro lk2 rid2 hlk hrid hne
          injection hlk with hlk
          subst hlk
          rw [resolveWith_routeId] at hrid
          injection hrid with hrid
          subst hrid
          refine ⟨resolveWith_source_gtfs query lk rid h0, ?_, ?_, ?_⟩
          · intro s hs hs0 hst
            rw [resolveWith_display_gtfs_named query lk rid s h0 hs hs0, if_neg hst]
          · intro s hs hs0 hst
            rw [resolveWith_display_gtfs_named query lk rid s h0 hs hs0, if_pos hst]
          · intro hname
            exact resolveWith_display_gtfs_unnamed query lk rid h0 hname

/-- C3 witness for the amended order: an unknown identifier with category `B`
and no number resolves, without a lookup, to the join `"B"`. -/
theorem c3_display_fallback_order_witness :
    (resolveLineInfo c3queryB none).lineDisplay = "B" := by
  have h := (c3_display_fallback_order c3queryB none).1 rfl
  rw [h]
  decide

theorem csvLoop_quote_open (t : List Char) (row : List (List Char)) (field : List Char) :
    csvLoop ('"' :: t) row field false = csvLoop t row field true := by
  rcases t with _ | ⟨c, t2⟩
  · simp [csvLoop]
  · by_cases hc : c = '"'
    · subst hc; simp [csvLoop]
    · simp [csvLoop, hc]

theorem csvLoop_quote_close (k : List Char) (row : List (List Char)) (field : List Char)
    (hk : k.head? ≠ some '"') :
    csvLoop ('"' :: k) row field true = csvLoop k row field false := by
  rcases k with _ | ⟨c, k2⟩
  · simp [csvLoop]
  · have hc : c ≠ '"' := by simpa using hk
    simp [csvLoop, hc]

theorem csvLoop_inq_step (c : Char) (t : List Char) (row : List (List Char))
    (field : List Char) (hc : c ≠ '"') :
    csvLoop (c :: t) row field true = csvLoop t row (field ++ [c]) true := by
  by_cases h2 : c = ','
  · subst h2; simp [csvLoop]
  · by_cases h3 : c = '\r'
    · subst h3
      rcases t with _ | ⟨c2, t2⟩
      · simp [csvLoop]
      · by_cases hc2 : c2 = '\n'
        · subst hc2; simp [csvLoop]
        · simp [csvLoop, hc2]
    · by_cases h4 : c = '\n'
      · subst h4; simp [csvLoop]
      · simp [csvLoop, hc, h2, h3, h4]

theorem csvLoop_escape (f : List Char) : ∀ (k : List Char) (row : List (List Char))
    (field : List Char), k.head? ≠ some '"' →
    csvLoop (csvEscapeL f ++ ('"' :: k)) row field true = csvLoop k row (field ++ f) false := by
  induction f with
  | nil =>
    intro k row field hk
    rw [show csvEscapeL [] = [] from rfl, List.nil_append,
      csvLoop_quote_close k row field hk, List.append_nil]
  | cons c f' ih =>
    intro k row field hk
    by_cases hc : c = '"'
    · subst hc
      rw [show csvEscapeL ('"' :: f') = '"' :: '"' :: csvEscapeL f' from by
        simp [csvEscapeL]]
      rw [List.cons_append, List.cons_append]
      rw [show csvLoop ('"' :: '"' :: (csvEscapeL f' ++ '"' :: k)) row field true =
          csvLoop (csvEscapeL f' ++ '"' :: k) row (field ++ ['"']) true from by
        simp [csvLoop]]
      rw [ih k row (field ++ ['"']) hk]
      congr 1
      simp
    · rw [show csvEscapeL (c :: f') = c :: csvEscapeL f' from by simp [csvEscapeL, hc]]
      rw [List.cons_append, csvLoop_inq_step c _ row field hc, ih k row (field ++ [c]) hk]
      congr 1
      simp

theorem csvLoop_field (f : List Char) (k : List Char) (row : List (List Char))
    (hk : k.head? ≠ some '"') :
    csvLoop (csvQuoteL f ++ k) row [] false = csvLoop k row f false := by
  rw [show csvQuoteL f ++ k = '"' :: (csvEscapeL f ++ ('"' :: k)) from by
    simp [csvQuoteL]]
  rw [csvLoop_quote_open, csvLoop_escape f k row [] hk, List.nil_append]

theorem printRowL_cons (f : List Char) (rest : List (List Char)) (h : rest ≠ []) :
    printRowL (f :: rest) = csvQuoteL f ++ ',' :: printRowL rest := by
  cases rest
  · exact absurd rfl h
  · simp [printRowL]

theorem printCsvL_cons (r : List (List Char)) (rest : List (List (List Char))) (h : rest ≠ []) :
    printCsvL (r :: rest) = printRowL r ++ '\n' :: printCsvL rest := by
  cases rest
  · exact absurd rfl h
  · simp [printCsvL]

theorem csvLoop_row (init : List (List Char)) : ∀ (lastF : List Char) (k : List Char)
    (row : List (List Char)), k.head? ≠ some '"' →
    csvLoop (printRowL (init ++ [lastF]) ++ k) row [] false = csvLoop k (row ++ init) lastF false := by
  induction init with
  | nil =>
    intro lastF k row hk
    rw [List.nil_append, show printRowL [lastF] = csvQuoteL lastF from by simp [printRowL],
      csvLoop_field lastF k row hk, List.append_nil]
  | cons f init' ih =>
    intro lastF k row hk
    rw [List.cons_append, printRowL_cons f _ (by simp), List.append_assoc, List.cons_append]
    rw [csvLoop_field f _ row (by simp)]
    rw [show csvLoop (',' :: (printRowL (init' ++ [lastF]) ++ k)) row f false =
        csvLoop (printRowL (init' ++ [lastF]) ++ k) (row ++ [f]) [] false from by
      simp [csvLoop]]
    rw [ih lastF k (row ++ [f]) hk]
    congr 1
    simp

theorem csvLoop_roundtrip : ∀ (rows : List (List (List Char))), rows ≠ [] →
    (∀ r ∈ rows, r ≠ []) → (∀ r, rows.getLast? = some r → r ≠ [[]]) →
    csvLoop (printCsvL rows) [] [] false = rows := by
  intro rows
  induction rows with
  | nil => intro h; exact absurd rfl h
  | cons r rows' ih =>
    intro _ hne hlast
    have hr : r ≠ [] := hne r (by simp)
    rcases List.eq_nil_or_concat r with hr0 | ⟨init, lastF, hdec⟩
    · exact absurd hr0 hr
    rw [List.concat_eq_append] at hdec
    cases rows' with
    | nil =>
      rw [show printCsvL [r] = printRowL r from by simp [printCsvL], hdec]
      rw [show printRowL (init ++ [lastF]) = printRowL (init ++ [lastF]) ++ [] from
        (List.append_nil _).symm]
      rw [csvLoop_row init lastF [] [] (by simp), List.nil_append]
      have hguard : lastF.length > 0 ∨ init.length > 0 := by
        rcases init with _ | ⟨x, xs⟩
        · left
          have h1 := hlast r (by simp)
          rw [hdec] at h1
          simp only [List.nil_append] at h1
          have : lastF ≠ [] := by
            intro hl
            exact h1 (by rw [hl])
          exact List.length_pos.mpr this
        · right; simp
      rw [show csvLoop ([] : List Char) init lastF false =
          (if lastF.length > 0 ∨ init.length > 0 then
            (if (init ++ [lastF]).length > 0 then [init ++ [lastF]] else [])
          else []) from by simp [csvLoop]]
      rw [if_pos hguard, if_pos (by simp)]
    | cons r2 rows'' =>
      rw [printCsvL_cons r (r2 :: rows'') (by simp), hdec]
      rw [csvLoop_row init lastF ('\n' :: printCsvL (r2 :: rows'')) [] (by simp),
        List.nil_append]
      rw [show csvLoop ('\n' :: printCsvL (r2 :: rows'')) init lastF false =
          (if (init ++ [lastF]).length > 0 then [init ++ [lastF]] else []) ++
            csvLoop (printCsvL (r2 :: rows'')) [] [] false from by simp [csvLoop]]
      rw [if_pos (by simp)]
      rw [ih (by simp) (fun x hx => hne x (by simp [hx]))
        (fun x hx => hlast x (by rw [List.getLast?_cons_cons]; exact hx))]
      rw [← hdec]
      rfl

/-- C4 (counterexample): a wholly empty line IS emitted: the tokenizer yields
a single row holding one empty field on input `"\n"` (the claim says such a
line is not emitted as a row). -/
theorem c4_counterexample : csvRows "\n" = [[""]] ∧ csvRows "\n" ≠ [] :=
  ⟨rfl, by decide⟩

/-- C4 (amended): quoted fields, doubled-quote escapes, comma separation and
`\n`/`\r\n`/`\r` row boundaries outside quotes are all honoured — printing any
row list (non-empty rows, last row not a lone empty field) in always-quoted
CSV and tokenizing returns exactly those rows; a trailing row without a line
break is emitted, a trailing line break adds no row, and an interior wholly
empty line IS emitted as a single empty field (the claim said it is not). -/
theorem c4_tokenizer_behaviour :
    (∀ rows : List (List (List Char)), rows ≠ [] → (∀ r ∈ rows, r ≠ []) →
      (∀ r, rows.getLast? = some r → r ≠ [[]]) →
      csvRows (String.mk (printCsvL rows)) =
        rows.map (fun row => row.map (fun f => String.mk f))) ∧
    csvRows "a,\"b,c\",\"d\"\"e\"\r\nf,g,h" = [["a", "b,c", "d\"e"], ["f", "g", "h"]] ∧
    csvRows "a\rb" = [["a"], ["b"]] ∧
    csvRows "a\r\nb" = [["a"], ["b"]] ∧
    csvRows "\"a\nb\",c" = [["a\nb", "c"]] ∧
    csvRows "a\n" = [["a"]] ∧
    csvRows "a\n\nb" = [["a"], [""], ["b"]] := by
  refine ⟨?_, rfl, rfl, rfl, rfl, rfl, rfl⟩
  intro rows hne hmem hlast
  rw [show csvRows (String.mk (printCsvL rows)) =
      (csvLoop (printCsvL rows) [] [] false).map
        (fun row => row.map (fun f => String.mk f)) from rfl]
  rw [csvLoop_roundtrip rows hne hmem hlast]

/-- C4 witness: the round trip evaluated on the spec's own two-row example. -/
theorem c4_tokenizer_behaviour_witness :
    csvRows (String.mk (printCsvL
        [[['a'], ['b', ',', 'c'], ['d', '"', 'e']], [['f'], ['g'], ['h']]])) =
      [["a", "b,c", "d\"e"], ["f", "g", "h"]] := by
  have h := c4_tokenizer_behaviour.1
    [[['a'], ['b', ',', 'c'], ['d', '"', 'e']], [['f'], ['g'], ['h']]]
    (by decide) (by decide)
    (by
      intro r hr
      simp at hr
      subst hr
      decide)
  rw [h]
  rfl

theorem findIdx?_none {α : Type} (p : α → Bool) :
    ∀ (l : List α), (∀ x ∈ l, p x = false) → l.findIdx? p = none := by
  intro l
  induction l with
  | nil => intro _; rfl
  | cons x xs ih =>
    intro h
    have hx : p x = false := h x (by simp)
    simp [List.findIdx?_cons, hx, ih (fun y hy => h y (by simp [hy]))]

theorem agencyFold_noId (idxName : Option ℕ) :
    ∀ (dataRows : List (List String)) (st : List (String × String) × String),
      st.2 = "default" → (st.1 = [] ∨ ∃ nm, st.1 = [("default", nm)]) →
      (dataRows.foldl (agencyStep none idxName) st).2 = "default" ∧
        ((dataRows.foldl (agencyStep none idxName) st).1 = [] ∨
          ∃ nm, (dataRows.foldl (agencyStep none idxName) st).1 = [("default", nm)]) := by
  intro dataRows
  induction dataRows with
  | nil => intro st h2 h1; exact ⟨h2, h1⟩
  | cons row rest ih =>
    intro st h2 h1
    simp only [List.foldl_cons]
    apply ih
    · simp only [agencyStep]
      split_ifs
      · exact h2
      · exact h2
    · simp only [agencyStep]
      split_ifs with hname
      · exact h1
      · rcases h1 with h1 | ⟨nm, h1⟩
        · right
          refine ⟨jsTrim (fieldAt row idxName), ?_⟩
          rw [h1, h2]
          rfl
        · right
          refine ⟨jsTrim (fieldAt row idxName), ?_⟩
          rw [h1, h2]
          simp [recordSet]

/-- C7 (counterexample): for the id-less agency table `agency_name\nA\nB` the
code keys every row under the constant id `default` (the last name wins) and
records `default` as the default agency id, whereas the claim's
rotating-name keying would produce the two keys `default` and `A` and record
no default id. -/
theorem c7_counterexample :
    parseAgencies "agency_name\nA\nB" =
      { agencies := [("default", "B")], defaultAgencyId := some "default" } ∧
    claimParseAgenciesRows (csvRows "agency_name\nA\nB") =
      { agencies := [("default", "A"), ("A", "B")], defaultAgencyId := none } ∧
    parseAgencies "agency_name\nA\nB" ≠
      claimParseAgenciesRows (csvRows "agency_name\nA\nB") :=
  ⟨by decide, by decide, by decide⟩

/-- C7 (amended): when the header omits an `agency_id` column, the fallback id
never rotates — every named row is keyed under the single id `default`, later
rows overwriting earlier ones, so at most one key exists; the default agency
id is recorded (as `default`) exactly when at least one key exists, which is
also the claim's "exactly one key" condition. -/
theorem c7_agency_fallback_id (rows : List (List String)) (header : List String)
    (dataRows : List (List String)) (hrows : rows = header :: dataRows)
    (hno : "agency_id" ∉ stripBom header) :
    (∀ p ∈ (parseAgenciesRows rows).agencies, p.1 = "default") ∧
    (parseAgenciesRows rows).agencies.length ≤ 1 ∧
    ((parseAgenciesRows rows).defaultAgencyId = some "default" ↔
      (parseAgenciesRows rows).agencies ≠ []) := by
  subst hrows
  have hidx : (stripBom header).findIdx? (fun f => f = "agency_id") = none := by
    apply findIdx?_none
    intro x hx
    simp only [decide_eq_false_iff_not]
    intro hc
    rw [hc] at hx
    exact hno hx
  have hP : parseAgenciesRows (header :: dataRows) =
      { agencies := (dataRows.foldl (agencyStep none
          ((stripBom header).findIdx? (fun f => f = "agency_name"))) ([], "default")).1
        defaultAgencyId :=
          if (dataRows.foldl (agencyStep none
              ((stripBom header).findIdx? (fun f => f = "agency_name"))) ([], "default")).1.length
              = 1 then
            ((dataRows.foldl (agencyStep none
              ((stripBom header).findIdx? (fun f => f = "agency_name")))
                ([], "default")).1.head?.map (fun p => p.1))
          else none } := by
    simp only [parseAgenciesRows, hidx]
  obtain ⟨hfb, hshape⟩ := agencyFold_noId
    ((stripBom header).findIdx? (fun f => f = "agency_name")) dataRows ([], "default")
    rfl (Or.inl rfl)
  rw [hP]
  rcases hshape with hshape | ⟨nm, hshape⟩ <;> rw [hshape] <;> simp

/-- C7 witness: the amended behaviour evaluated on the two-row id-less table. -/
theorem c7_agency_fallback_id_witness :
    (parseAgenciesRows (csvRows "agency_name\nA\nB")).agencies.length ≤ 1 ∧
    (parseAgenciesRows (csvRows "agency_name\nA\nB")).defaultAgencyId = some "default" := by
  have h := c7_agency_fallback_id (csvRows "agency_name\nA\nB") ["agency_name"]
    [["A"], ["B"]] (by rfl) (by decide)
  exact ⟨h.2.1, h.2.2.mpr (by decide)⟩

end Swiss
